import Mathlib

/-!
Shallow embedding of the hallucination-detection/correction pipeline
(claim extraction, intent classification, evidence verification and the
pipeline orchestrators) together with proofs about the behaviours the
specification ascribes to it.

Python strings are modelled as lists of characters (`PyStr`), Python
numbers as exact rationals, Python dicts with statically known keys as
structures and dynamically keyed dicts as association lists with
update-or-append semantics.  Exceptions are modelled with `Except`.
The LanguageModelGateway and the EmbeddingSimilarityStore are consumed
services; they are modelled as oracles (a script of responses for the
gateway, a query-indexed function for the store).
-/

/-- Python strings, modelled as lists of unicode characters
(`len`, indexing and slicing then agree with Python code-point counts). -/
abbrev PyStr := List Char

/-- Python exceptions relevant to the embedded code. -/
inductive PyErr where
  | keyError (k : PyStr)
  | typeError (m : PyStr)
  | valueError (m : PyStr)
  | attributeError (m : PyStr)
  | zeroDivisionError
  deriving DecidableEq, Repr

/-- Characters stripped by Python `str.strip()` (the ASCII whitespace
subset; the sources only ever strip text containing these). -/
def pyIsSpace (c : Char) : Bool :=
  c = ' ' ∨ c = '\t' ∨ c = '\n' ∨ c = '\r' ∨ c = '\x0b' ∨ c = '\x0c'

/-- Python `str.strip()`. -/
def pyStrip (s : PyStr) : PyStr :=
  ((s.dropWhile pyIsSpace).reverse.dropWhile pyIsSpace).reverse

/-- Python `str.split(sep)` for a single-character separator: does not
collapse runs and keeps empty fragments. -/
def pySplitChar (sep : Char) (s : PyStr) : List PyStr :=
  match s with
  | [] => [[]]
  | c :: rest =>
    let tail := pySplitChar sep rest
    if c = sep then [] :: tail
    else
      match tail with
      | [] => [[c]]
      | t :: ts => (c :: t) :: ts

/-- `re.split` against a one-character-class-plus pattern such as
`[.!?。！？]+`: runs of separator characters are single split points. -/
def reSplitRuns (isSep : Char → Bool) (s : PyStr) : List PyStr :=
  match s with
  | [] => [[]]
  | c :: rest =>
    let tail := reSplitRuns isSep rest
    if isSep c then
      match rest with
      | [] => [[], []]
      | d :: _ => if isSep d then tail else [] :: tail
    else
      match tail with
      | [] => [[c]]
      | t :: ts => (c :: t) :: ts

/-- Python `sep.join(parts)`. -/
def pyJoin (sep : PyStr) (parts : List PyStr) : PyStr :=
  match parts with
  | [] => []
  | [p] => p
  | p :: rest => p ++ sep ++ pyJoin sep rest

/-- Whether `pat` occurs at the head of `s`. -/
def occursAtHead (pat s : PyStr) : Bool :=
  pat.isPrefixOf s

/-- Index of the first occurrence of `pat` in `s`
(Python `str.find` / the test of the `in` operator). -/
def findSub (pat s : PyStr) : Option Nat :=
  match s with
  | [] => if pat.isEmpty then some 0 else none
  | _ :: rest =>
    if occursAtHead pat s then some 0
    else (findSub pat rest).map (· + 1)

/-- Python `pat in s` on strings (substring containment). -/
def containsSub (pat s : PyStr) : Bool :=
  (findSub pat s).isSome

/-- Decimal rendering of a natural number. -/
def natToStr (n : Nat) : PyStr :=
  Nat.toDigits 10 n

/-- Parse a nonempty run of decimal digits (Python `int(...)`,
so leading zeros collapse). -/
def digitsToNat (ds : PyStr) : Nat :=
  ds.foldl (fun acc c => acc * 10 + (c.toNat - '0'.toNat)) 0

example : pyStrip "  ab ".toList = "ab".toList := by decide
example : pySplitChar ',' "a,,b".toList = ["a".toList, [], "b".toList] := by decide
example : findSub "bc".toList "abcd".toList = some 1 := by decide
example : digitsToNat "012".toList = 12 := by decide

/-! ### JSON values and `json.loads`

Decoded JSON documents (and more generally the heterogeneous Python
dicts the verifier builds) are modelled by `JVal`.  Numbers are exact
rationals; the non-standard `NaN`/`Infinity` float literals accepted by
`json.loads` have no rational counterpart and are not modelled. -/

inductive JVal where
  | jstr (s : PyStr)
  | jnum (q : ℚ)
  | jbool (b : Bool)
  | jnull
  | jarr (xs : List JVal)
  | jobj (kvs : List (PyStr × JVal))

/-- Python dict lookup `d.get(k)` on an association list whose keys are
unique (as produced by `pyDictSet`). -/
def pyDictGet (kvs : List (PyStr × JVal)) (k : PyStr) : Option JVal :=
  match kvs with
  | [] => none
  | (k0, v0) :: rest => if k0 = k then some v0 else pyDictGet rest k

/-- Python dict update `d[k] = v`: overwrite in place if the key exists
(keeping its position), otherwise append. -/
def pyDictSet (kvs : List (PyStr × JVal)) (k : PyStr) (v : JVal) :
    List (PyStr × JVal) :=
  match kvs with
  | [] => [(k, v)]
  | (k0, v0) :: rest =>
    if k0 = k then (k0, v) :: rest else (k0, v0) :: pyDictSet rest k v

/-- Whitespace skipped between JSON tokens (per RFC 8259 / `json.loads`). -/
def jsonSkipWs (s : PyStr) : PyStr :=
  s.dropWhile (fun c => c = ' ' ∨ c = '\t' ∨ c = '\n' ∨ c = '\r')

/-- Value of a hexadecimal digit, if any. -/
def hexDigitVal (c : Char) : Option Nat :=
  if '0' ≤ c ∧ c ≤ '9' then some (c.toNat - '0'.toNat)
  else if 'a' ≤ c ∧ c ≤ 'f' then some (c.toNat - 'a'.toNat + 10)
  else if 'A' ≤ c ∧ c ≤ 'F' then some (c.toNat - 'A'.toNat + 10)
  else none

/-- Reads the four hex digits of a `\uXXXX` escape. -/
def readHex4 (s : PyStr) : Option (Nat × PyStr) :=
  match s with
  | a :: b :: c :: d :: rest => do
    let va ← hexDigitVal a
    let vb ← hexDigitVal b
    let vc ← hexDigitVal c
    let vd ← hexDigitVal d
    some (((va * 16 + vb) * 16 + vc) * 16 + vd, rest)
  | _ => none

/-- Body of a JSON string after the opening quote: returns the decoded
content and the remainder after the closing quote.  Surrogate pairs in
`\u` escapes are combined; raw control characters are rejected, as in
`json.loads`. -/
def jsonStringBody (fuel : Nat) (s : PyStr) : Option (PyStr × PyStr) :=
  match fuel with
  | 0 => none
  | fuel + 1 =>
    match s with
    | [] => none
    | '"' :: rest => some ([], rest)
    | '\\' :: e :: rest =>
      let simple : Char → Option Char := fun c =>
        match c with
        | '"' => some '"'
        | '\\' => some '\\'
        | '/' => some '/'
        | 'b' => some '\x08'
        | 'f' => some '\x0c'
        | 'n' => some '\n'
        | 'r' => some '\r'
        | 't' => some '\t'
        | _ => none
      match simple e with
      | some c => do
        let (tail, rem) ← jsonStringBody fuel rest
        some (c :: tail, rem)
      | none =>
        if e = 'u' then do
          let (n, rest2) ← readHex4 rest
          if 0xD800 ≤ n ∧ n ≤ 0xDBFF then
            match rest2 with
            | '\\' :: 'u' :: rest3 => do
              let (m, rest4) ← readHex4 rest3
              if 0xDC00 ≤ m ∧ m ≤ 0xDFFF then do
                let code := 0x10000 + (n - 0xD800) * 0x400 + (m - 0xDC00)
                let (tail, rem) ← jsonStringBody fuel rest4
                some (Char.ofNat code :: tail, rem)
              else do
                let (tail, rem) ← jsonStringBody fuel rest2
                some (Char.ofNat n :: tail, rem)
            | _ => do
              let (tail, rem) ← jsonStringBody fuel rest2
              some (Char.ofNat n :: tail, rem)
          else do
            let (tail, rem) ← jsonStringBody fuel rest2
            some (Char.ofNat n :: tail, rem)
        else none
    | c :: rest =>
      if c.toNat < 0x20 then none
      else do
        let (tail, rem) ← jsonStringBody fuel rest
        some (c :: tail, rem)

/-- Longest run of decimal digits at the head of `s`. -/
def takeDigits (s : PyStr) : PyStr × PyStr :=
  (s.takeWhile (fun c => '0' ≤ c ∧ c ≤ '9'),
   s.dropWhile (fun c => '0' ≤ c ∧ c ≤ '9'))

/-- JSON number at the head of `s` (RFC 8259 grammar: no leading zeros,
optional fraction and exponent), as an exact rational. -/
def jsonNumber (s : PyStr) : Option (ℚ × PyStr) := do
  let (neg, s1) :=
    match s with
    | '-' :: rest => (true, rest)
    | _ => (false, s)
  let (ip, s2) := takeDigits s1
  if ip.isEmpty then none else
  if ip.length > 1 ∧ ip.headD '0' = '0' then none else do
  let intVal : ℚ := (digitsToNat ip : ℚ)
  let (fracVal, s3) :=
    match s2 with
    | '.' :: rest =>
      let (fp, r) := takeDigits rest
      if fp.isEmpty then ((none : Option ℚ), s2)
      else (some ((digitsToNat fp : ℚ) / ((10 : ℚ) ^ fp.length)), r)
    | _ => (none, s2)
  match s2, fracVal with
  | '.' :: _, none => none
  | _, _ => do
  let base := intVal + fracVal.getD 0
  let expCont : PyStr → Option (ℚ × PyStr) := fun rest =>
    let (esign, r1) :=
      match rest with
      | '+' :: r => ((1 : ℤ), r)
      | '-' :: r => ((-1 : ℤ), r)
      | _ => ((1 : ℤ), rest)
    let (ep, r2) := takeDigits r1
    if ep.isEmpty then none
    else
      let e : ℤ := esign * (digitsToNat ep : ℤ)
      let scaled := base * (10 : ℚ) ^ e
      some (if neg then -scaled else scaled, r2)
  match s3 with
  | 'e' :: rest => expCont rest
  | 'E' :: rest => expCont rest
  | _ => some (if neg then -base else base, s3)

mutual

/-- JSON value at the head of `s` (after any leading whitespace),
following the strict `json.loads` grammar. -/
def jsonValue (fuel : Nat) (s : PyStr) : Option (JVal × PyStr) :=
  match fuel with
  | 0 => none
  | fuel + 1 =>
    let s := jsonSkipWs s
    match s with
    | '"' :: rest => do
      let (str, rem) ← jsonStringBody (rest.length + 1) rest
      some (JVal.jstr str, rem)
    | '{' :: rest =>
      let rest2 := jsonSkipWs rest
      match rest2 with
      | '}' :: rem => some (JVal.jobj [], rem)
      | _ => do
        let (kvs, rem) ← jsonMembers fuel rest []
        some (JVal.jobj kvs, rem)
    | '[' :: rest =>
      let rest2 := jsonSkipWs rest
      match rest2 with
      | ']' :: rem => some (JVal.jarr [], rem)
      | _ => do
        let (xs, rem) ← jsonElements fuel rest
        some (JVal.jarr xs, rem)
    | 't' :: 'r' :: 'u' :: 'e' :: rest => some (JVal.jbool true, rest)
    | 'f' :: 'a' :: 'l' :: 's' :: 'e' :: rest => some (JVal.jbool false, rest)
    | 'n' :: 'u' :: 'l' :: 'l' :: rest => some (JVal.jnull, rest)
    | _ => do
      let (q, rem) ← jsonNumber s
      some (JVal.jnum q, rem)

/-- Non-empty member list of a JSON object; duplicate keys overwrite
earlier ones, as in `json.loads`. -/
def jsonMembers (fuel : Nat) (s : PyStr) (acc : List (PyStr × JVal)) :
    Option (List (PyStr × JVal) × PyStr) :=
  match fuel with
  | 0 => none
  | fuel + 1 =>
    let s := jsonSkipWs s
    match s with
    | '"' :: rest => do
      let (key, rem) ← jsonStringBody (rest.length + 1) rest
      let rem2 := jsonSkipWs rem
      match rem2 with
      | ':' :: rem3 => do
        let (v, rem4) ← jsonValue fuel rem3
        let acc2 := pyDictSet acc key v
        let rem5 := jsonSkipWs rem4
        match rem5 with
        | ',' :: rem6 => jsonMembers fuel rem6 acc2
        | '}' :: rem6 => some (acc2, rem6)
        | _ => none
      | _ => none
    | _ => none

/-- Non-empty element list of a JSON array. -/
def jsonElements (fuel : Nat) (s : PyStr) : Option (List JVal × PyStr) :=
  match fuel with
  | 0 => none
  | fuel + 1 => do
    let (v, rem) ← jsonValue fuel s
    let rem2 := jsonSkipWs rem
    match rem2 with
    | ',' :: rem3 => do
      let (xs, rem4) ← jsonElements fuel rem3
      some (v :: xs, rem4)
    | ']' :: rem3 => some ([v], rem3)
    | _ => none

end

/-- Python `json.loads`: decode `s` as a single JSON document, demanding
that only whitespace follows it.  `none` models `json.JSONDecodeError`. -/
def jsonLoads (s : PyStr) : Option JVal := do
  let (v, rem) ← jsonValue (s.length + 2) s
  if (jsonSkipWs rem).isEmpty then some v else none

/-! ### The LanguageModelGateway oracle

`src/llm/llm_client.py` itself is not in the tree (only its tests and
callers are). -/

/-- Modelled from the spec: a LanguageModelGateway response is
`{text, usage, model, finish_reason}` on success or `{error: true,
text: diagnostic}` on failure (spec §4.1/§6; the repository's own
`tests/test_llm_client.py` asserts exactly this shape).  Only the fields
the embedded callers read are carried.  Notably the documented shape has
no `error_message` key. -/
structure LLMResponse where
  text : PyStr
  error : Bool
  usage : JVal

/-- Python `response['error_message']` on an `LLMResponse` dict:
the documented response shape never carries that key. -/
def LLMResponse.getErrorMessage (_r : LLMResponse) : Option PyStr := none

/-- Modelled from the spec: the gateway is an external oracle.  It is
modelled as a script of responses consumed in call order (exactly how
the repository's tests drive it, via mock `side_effect` lists) together
with a counter of issued calls.  An exhausted script yields the
documented retry-exhaustion error response. -/
structure GwState where
  script : List LLMResponse
  calls : Nat

/-- Modelled from the spec: `call_with_retry` returns the next scripted
response (the prompt argument routes to the external service and does
not influence the scripted oracle) and counts the call. -/
def callWithRetry (_prompt : PyStr) (s : GwState) : LLMResponse × GwState :=
  match s.script with
  | [] => ({ text := "所有重试失败".toList, error := true, usage := JVal.jobj [] },
           { script := [], calls := s.calls + 1 })
  | r :: rest => (r, { script := rest, calls := s.calls + 1 })

/-! ### ClaimExtractor
(`llm_hallucination_correction/src/claim_extractor.py`) -/

/-- An extracted claim: the dict
`{id?, text, confidence, atomic, original_position?}`.  The `id` and
`original_position` keys are absent (`none`) on the short-text and
whole-text fallback paths, which build the dict without them. -/
structure Claim where
  id : Option PyStr
  text : PyStr
  confidence : ℚ
  atomic : Bool
  original_position : Option Nat
  deriving DecidableEq, Repr

namespace ClaimExtractor

/-- `_build_claim_extraction_prompt`. -/
def build_claim_extraction_prompt (text : PyStr) : PyStr :=
  "\n        任务：将下面的文本分解为独立的真实性陈述（原子断言）。\n        \n        要求：\n        1. 每个陈述应该是原子性的，表达一个完整的事实或观点\n        2. 为每个陈述编号，格式为：[CLAIM_1]: 陈述内容\n        3. 确保分解后的陈述覆盖原文的所有重要信息\n        4. 保持陈述的客观性和准确性\n        \n        文本内容：\n        ".toList
  ++ text
  ++ "\n        \n        请按以下格式输出：\n        [CLAIM_1]: 第一个原子陈述\n        [CLAIM_2]: 第二个原子陈述\n        ...\n        ".toList

/-- `re.match(r'\[CLAIM_(\d+)\]:\s*(.+)', line)` followed by
`int(group(1))` and `group(2).strip()`.  The regex matches iff the line
starts with `[CLAIM_`, digits, `]:` and at least one further character;
after the final `.strip()` the captured text is exactly the stripped
remainder. -/
def matchClaimLine (line : PyStr) : Option (Nat × PyStr) :=
  if occursAtHead "[CLAIM_".toList line then
    let rest := line.drop 7
    let (ds, rest2) := takeDigits rest
    if ds.isEmpty then none
    else if occursAtHead "]:".toList rest2 then
      let rest3 := rest2.drop 2
      if rest3.isEmpty then none
      else some (digitsToNat ds, pyStrip rest3)
    else none
  else none

/-- `_estimate_position`. -/
def estimate_position (claim_text original_text : PyStr) : Nat :=
  match findSub claim_text original_text with
  | some i => i
  | none => 0

/-- Characters on which `_fallback_extraction` splits
(`re.split(r'[.!?。！？]+', text)`). -/
def isSentenceEnd (c : Char) : Bool :=
  c = '.' ∨ c = '!' ∨ c = '?' ∨ c = '。' ∨ c = '！' ∨ c = '？'

/-- `_fallback_extraction`: split on terminal punctuation, keep stripped
fragments strictly longer than 10 characters as confidence-0.7
non-atomic claims, and fall back to one whole-text claim when nothing
survives. -/
def fallback_extraction (text : PyStr) : List Claim :=
  let sentences := reSplitRuns isSentenceEnd text
  let claims := sentences.enum.filterMap (fun is =>
    let s := pyStrip is.2
    if 10 < s.length then
      some { id := some ("claim_".toList ++ natToStr (is.1 + 1)),
             text := s, confidence := 7/10, atomic := false,
             original_position := some is.1 }
    else none)
  if claims.isEmpty then
    [{ id := none, text := text, confidence := 1, atomic := true,
       original_position := none }]
  else claims

/-- The line loop of `_parse_claims_response`: the claims of the lines
matching the `[CLAIM_n]:` format. -/
def parsed_claim_lines (response original_text : PyStr) : List Claim :=
  (pySplitChar '\n' (pyStrip response)).filterMap (fun line =>
    let line := pyStrip line
    if line.isEmpty then none
    else
      match matchClaimLine line with
      | some nt =>
        some { id := some ("claim_".toList ++ natToStr nt.1),
               text := nt.2, confidence := 9/10, atomic := true,
               original_position := some (estimate_position nt.2 original_text) }
      | none => none)

/-- `_parse_claims_response`. -/
def parse_claims_response (response original_text : PyStr) : List Claim :=
  let claims := parsed_claim_lines response original_text
  if claims.isEmpty then fallback_extraction original_text else claims

/-- `extract_claims`. -/
def extract_claims (text : PyStr) (s : GwState) : List Claim × GwState :=
  if text.isEmpty ∨ (pyStrip text).length < 10 then
    ([{ id := none, text := text, confidence := 1, atomic := true,
        original_position := none }], s)
  else
    let (response, s1) := callWithRetry (build_claim_extraction_prompt text) s
    if response.error then (fallback_extraction text, s1)
    else (parse_claims_response response.text text, s1)

end ClaimExtractor

/-! ### IntentClassifier
(`llm_hallucination_correction/src/intent_classifier.py`) -/

/-- The `intent` configuration section as read by
`IntentClassifier.__init__`: `config.get('supported_intents', [])` and
`config.get('default_intent', '事实查询')`, already resolved. -/
structure IntentConfig where
  supported_intents : List PyStr
  default_intent : PyStr

namespace IntentClassifier

/-- `self.intent_templates`, the intent-to-retrieval-template table.
Only these four keys exist. -/
def intent_templates : List (PyStr × PyStr) :=
  [("事实查询".toList, "找到关于[\x7b\x7d]的具体事实".toList),
   ("比较查询".toList, "找到[\x7b\x7d]的对比信息".toList),
   ("方法查询".toList, "找到如何[\x7b\x7d]的方法或步骤".toList),
   ("观点查询".toList, "找到关于[\x7b\x7d]的不同观点或评价".toList)]

/-- `template.format(arg)` for the single-placeholder templates above:
the first `\x7b\x7d` is replaced by the argument. -/
def pyFormatOne (template arg : PyStr) : PyStr :=
  match findSub "\x7b\x7d".toList template with
  | some i => template.take i ++ arg ++ template.drop (i + 2)
  | none => template

/-- `_build_intent_classification_prompt`. -/
def build_intent_classification_prompt (query : PyStr) : PyStr :=
  "\n        请分析以下用户查询的意图类型，从以下选项中选择最匹配的一个：\n        \n        可选意图类型：\n        - 事实查询：寻求具体事实、数据、定义、属性等客观信息\n        - 比较查询：比较两个或多个实体、概念、方法的异同点\n        - 方法查询：寻求操作流程、解决方案、实施步骤、操作方法\n        - 观点查询：收集多方意见、评价、争议观点、不同立场\n        \n        查询内容：\"".toList
  ++ query
  ++ "\"\n        \n        请只返回意图类型的名称，不要添加其他解释。\n        ".toList

/-- `re.search` for the patterns `意图[：:]?\s*(\S+)` and
`类型[：:]?\s*(\S+)`: scan for the first occurrence of the marker that
is followed by at least one non-whitespace character; the optional colon
is consumed greedily, falling back (regex backtracking) to treating it
as part of the `\S+` capture when nothing non-blank follows it. -/
def searchMarkerPat (marker : PyStr) (s : PyStr) : Option PyStr :=
  match s with
  | [] => none
  | _ :: rest =>
    if occursAtHead marker s then
      let t := s.drop marker.length
      if (t.dropWhile pyIsSpace).isEmpty then searchMarkerPat marker rest
      else
        let groupB := (t.dropWhile pyIsSpace).takeWhile (fun c => ¬ pyIsSpace c)
        match t with
        | c :: t1 =>
          if c = '：' ∨ c = ':' then
            let t2 := t1.dropWhile pyIsSpace
            if t2.isEmpty then some groupB
            else some (t2.takeWhile (fun c => ¬ pyIsSpace c))
          else some groupB
        | [] => some groupB
    else searchMarkerPat marker rest

/-- `re.search(r'^(\S+查询)', s)`: a greedy `\S+` followed by the
literal `查询`, anchored at the start; backtracking picks the largest
`j ≥ 1` within the leading non-whitespace run with `查询` at `j`. -/
def matchHeadIntentPat (s : PyStr) : Option PyStr :=
  let m := (s.takeWhile (fun c => ¬ pyIsSpace c)).length
  match (List.range (m + 1)).reverse.find? (fun j =>
      1 ≤ j ∧ s.get? j = some '查' ∧ s.get? (j + 1) = some '询') with
  | some j => some (s.take (j + 2))
  | none => none

/-- `_parse_intent_response`: exact containment against the supported
intents, then the three extraction patterns in order (a pattern's
candidate is used only if it is itself supported), else the default. -/
def parse_intent_response (cfg : IntentConfig) (response : PyStr) : PyStr :=
  let cleaned := pyStrip response
  match cfg.supported_intents.find? (fun intent => containsSub intent cleaned) with
  | some intent => intent
  | none =>
    let tryPat : Option PyStr → Option PyStr := fun cand =>
      match cand with
      | some c => if c ∈ cfg.supported_intents then some c else none
      | none => none
    match tryPat (searchMarkerPat "意图".toList cleaned) with
    | some c => c
    | none =>
      match tryPat (matchHeadIntentPat cleaned) with
      | some c => c
      | none =>
        match tryPat (searchMarkerPat "类型".toList cleaned) with
        | some c => c
        | none => cfg.default_intent

/-- `classify_intent`. -/
def classify_intent (cfg : IntentConfig) (query : PyStr) (s : GwState) :
    PyStr × GwState :=
  let (response, s1) := callWithRetry (build_intent_classification_prompt query) s
  if response.error then (cfg.default_intent, s1)
  else
    let intent := parse_intent_response cfg response.text
    (if intent ∈ cfg.supported_intents then intent else cfg.default_intent, s1)

/-- `_extract_comparison_entities`. -/
def extract_comparison_entities (query : PyStr) (s : GwState) :
    List PyStr × GwState :=
  let prompt :=
    "\n        从以下比较查询中提取被比较的主要实体（通常为2个核心实体）：\n        查询：\"".toList
    ++ query
    ++ "\"\n        \n        请只返回实体名称，用逗号分隔，不要添加其他内容。\n        ".toList
  let (response, s1) := callWithRetry prompt s
  if response.error then ([query], s1)
  else
    let entities := (pySplitChar ',' response.text).map pyStrip
    (entities.filter (fun e => ¬ e.isEmpty), s1)

/-- `generate_retrieval_prompt`: `self.intent_templates[intent]` is a
plain subscript, so an intent outside the four template keys raises
`KeyError`. -/
def generate_retrieval_prompt (query intent : PyStr) (s : GwState) :
    Except PyErr (PyStr × GwState) :=
  if intent = "比较查询".toList then
    let (entities, s1) := extract_comparison_entities query s
    if 2 ≤ entities.length then
      let entitiesStr := pyJoin "和".toList (entities.take 2)
      match intent_templates.lookup intent with
      | some t => .ok (pyFormatOne t entitiesStr, s1)
      | none => .error (.keyError intent)
    else
      match intent_templates.lookup intent with
      | some t => .ok (pyFormatOne t query, s1)
      | none => .error (.keyError intent)
  else
    match intent_templates.lookup intent with
    | some t => .ok (pyFormatOne t query, s)
    | none => .error (.keyError intent)

end IntentClassifier

/-! ### Evidence snippets and the similarity store oracle -/

/-- An evidence snippet as produced by `VectorRetriever.search`
(`{text, source, similarity, rank}`); all four keys are always set. -/
structure Snippet where
  text : PyStr
  source : PyStr
  similarity : ℚ
  rank : Nat
  deriving DecidableEq

/-- Modelled from the spec: the EmbeddingSimilarityStore is an external
service; `search` is modelled as a deterministic function from the query
string to the returned snippet list. -/
abbrev Retriever := PyStr → List Snippet

/-! ### EvidenceVerifier
(`src/verification/evidence_verifier.py`) -/

namespace EvidenceVerifier

/-- `_get_timestamp` reads the wall clock; no claim concerns its value,
so it is modelled as a fixed placeholder string. -/
def get_timestamp : PyStr := []

/-- Python float formatting `f"...:{x:.Nf}"` on an exact rational:
scale, round half to even, render with `N` decimals.  (The binary-float
representation error of CPython is not modelled; these strings only
flow into prompts.) -/
def formatFixed (prec : Nat) (q : ℚ) : PyStr :=
  let scaled : ℚ := |q| * (10 : ℚ) ^ prec
  let fl : ℤ := ⌊scaled⌋
  let frac : ℚ := scaled - (fl : ℚ)
  let n : ℤ :=
    if frac > 1/2 then fl + 1
    else if frac < 1/2 then fl
    else if fl % 2 = 0 then fl else fl + 1
  let m := n.toNat
  let ip := m / 10 ^ prec
  let fp := m % 10 ^ prec
  let body :=
    if prec = 0 then natToStr ip
    else
      let fpd := natToStr fp
      natToStr ip ++ ".".toList ++ (List.replicate (prec - fpd.length) '0' ++ fpd)
  if q < 0 then '-' :: body else body

/-- `_format_evidence_snippets`. -/
def format_evidence_snippets (snippets : List Snippet) : PyStr :=
  if snippets.isEmpty then "暂无相关证据片段".toList
  else
    pyJoin "\n".toList (snippets.enum.map (fun is =>
      "[证据".toList ++ natToStr (is.1 + 1) ++ "] 来源: ".toList ++ is.2.source
      ++ " (相关性: ".toList ++ formatFixed 3 is.2.similarity ++ ")\n".toList
      ++ is.2.text ++ "\n".toList))

/-- `_build_verification_prompt`. -/
def build_verification_prompt (claim : PyStr) (snippets : List Snippet)
    (query intent : PyStr) : PyStr :=
  "\n        作为事实核查专家，请基于提供的证据验证以下声明的真实性。\n        \n        查询意图：".toList
  ++ intent
  ++ "\n        原始查询：\"".toList ++ query
  ++ "\"\n        需要验证的声明：\"".toList ++ claim
  ++ "\"\n        \n        相关证据片段：\n        ".toList
  ++ format_evidence_snippets snippets
  ++ "\n        \n        请按以下JSON格式输出验证结果：\n        \x7b\n            \"verdict\": \"SUPPORTED|CONTRADICTED|PARTIALLY_SUPPORTED|UNVERIFIED\",\n            \"confidence\": 0.0-1.0,\n            \"supporting_evidence\": [\n                \x7b\n                    \"text\": \"证据文本\",\n                    \"source\": \"来源\",\n                    \"relevance_score\": 0.0-1.0\n                \x7d\n            ],\n            \"contradicting_evidence\": [\n                \x7b\n                    \"text\": \"矛盾证据文本\", \n                    \"source\": \"来源\",\n                    \"contradiction_score\": 0.0-1.0\n                \x7d\n            ],\n            \"reasoning\": \"详细的推理过程\",\n            \"intent_specific_analysis\": \"针对".toList
  ++ intent
  ++ "意图的特别分析\"\n        \x7d\n        \n        验证指南：\n        - SUPPORTED: 有明确证据支持该声明\n        - CONTRADICTED: 有明确证据反驳该声明  \n        - PARTIALLY_SUPPORTED: 部分证据支持，但有不准确或夸大之处\n        - UNVERIFIED: 缺乏足够证据进行判断\n        \n        请确保推理过程详细且基于证据。\n        ".toList

/-- `re.search(r'\{.*\}', response, re.DOTALL)`: with the greedy `.*`
this matches from the first opening brace to the last closing brace,
provided the latter comes after the former. -/
def braceCandidate (s : PyStr) : Option PyStr :=
  match s.findIdx? (· = '\x7b') with
  | none => none
  | some i =>
    match s.reverse.findIdx? (· = '\x7d') with
    | none => none
    | some rj =>
      let j := s.length - 1 - rj
      if i < j then some ((s.take (j + 1)).drop i) else none

/-- The decode step of `_parse_verification_response`: `json.loads` of
the brace-delimited candidate when one exists, else of the whole
response.  `none` is the caught `json.JSONDecodeError`. -/
def decodeCandidate (response : PyStr) : Option JVal :=
  match braceCandidate response with
  | some sub => jsonLoads sub
  | none => jsonLoads response

/-- Python `key in result` where `result` is an arbitrary decoded JSON
value: key membership for dicts, element equality for lists, substring
for strings, `TypeError` otherwise. -/
def pyContains (v : JVal) (key : PyStr) : Except PyErr Bool :=
  match v with
  | .jobj kvs => .ok ((pyDictGet kvs key).isSome)
  | .jarr xs => .ok (xs.any (fun x => match x with | .jstr s => s = key | _ => false))
  | .jstr s => .ok (containsSub key s)
  | _ => .error (.typeError "argument not iterable".toList)

/-- Python `result[k] = x` on a decoded JSON value: item assignment is
only supported on dicts. -/
def pySetItem (v : JVal) (k : PyStr) (x : JVal) : Except PyErr JVal :=
  match v with
  | .jobj kvs => .ok (.jobj (pyDictSet kvs k x))
  | _ => .error (.typeError "item assignment".toList)

/-- Python `result[k]` on a decoded JSON value with a string key. -/
def pyGetItem (v : JVal) (k : PyStr) : Except PyErr JVal :=
  match v with
  | .jobj kvs =>
    match pyDictGet kvs k with
    | some x => .ok x
    | none => .error (.keyError k)
  | _ => .error (.typeError "indices".toList)

/-- `_create_error_result`. -/
def create_error_result (claim error_message : PyStr) : JVal :=
  .jobj
    [("verdict".toList, .jstr "UNVERIFIED".toList),
     ("confidence".toList, .jnum 0),
     ("claim".toList, .jstr claim),
     ("supporting_evidence".toList, .jarr []),
     ("contradicting_evidence".toList, .jarr []),
     ("reasoning".toList, .jstr ("验证过程中发生错误: ".toList ++ error_message)),
     ("intent_specific_analysis".toList, .jstr []),
     ("error".toList, .jbool true),
     ("timestamp".toList, .jstr get_timestamp)]

/-- `_create_fallback_result`. -/
def create_fallback_result (claim intent raw_response : PyStr) : JVal :=
  .jobj
    [("verdict".toList, .jstr "UNVERIFIED".toList),
     ("confidence".toList, .jnum (3/10)),
     ("claim".toList, .jstr claim),
     ("intent".toList, .jstr intent),
     ("supporting_evidence".toList, .jarr []),
     ("contradicting_evidence".toList, .jarr []),
     ("reasoning".toList,
      .jstr ("无法解析验证响应，原始响应: ".toList ++ raw_response.take 200 ++ "...".toList)),
     ("intent_specific_analysis".toList, .jstr "响应格式错误，无法进行意图特定分析".toList),
     ("fallback".toList, .jbool true),
     ("timestamp".toList, .jstr get_timestamp)]

/-- The `result[f] = []`-defaulting of the two evidence-list fields in
`_parse_verification_response`. -/
def defaultListField (r : JVal) (f : PyStr) : Except PyErr JVal := do
  let mem ← pyContains r f
  if ¬ mem then pySetItem r f (.jarr [])
  else do
    let v ← pyGetItem r f
    match v with
    | .jarr _ => .ok r
    | _ => pySetItem r f (.jarr [])

/-- `_parse_verification_response`. -/
def parse_verification_response (response claim intent : PyStr) :
    Except PyErr JVal :=
  match decodeCandidate response with
  | none => .ok (create_fallback_result claim intent response)
  | some result => do
    let hasVerdict ← pyContains result "verdict".toList
    if ¬ hasVerdict then .ok (create_fallback_result claim intent response)
    else do
      let hasConf ← pyContains result "confidence".toList
      if ¬ hasConf then .ok (create_fallback_result claim intent response)
      else do
        let r1 ← pySetItem result "claim".toList (.jstr claim)
        let r2 ← pySetItem r1 "intent".toList (.jstr intent)
        let r3 ← pySetItem r2 "timestamp".toList (.jstr get_timestamp)
        let r4 ← defaultListField r3 "supporting_evidence".toList
        let r5 ← defaultListField r4 "contradicting_evidence".toList
        .ok r5

/-- `verify_claim`.  Note the error branch reads
`response['error_message']`, a key the documented gateway error shape
does not carry, so it raises `KeyError` instead of reaching
`_create_error_result`. -/
def verify_claim (claim : PyStr) (snippets : List Snippet)
    (query intent : PyStr) (s : GwState) : Except PyErr (JVal × GwState) :=
  let prompt := build_verification_prompt claim snippets query intent
  let (response, s1) := callWithRetry prompt s
  if response.error then
    match response.getErrorMessage with
    | none => .error (.keyError "error_message".toList)
    | some m => .ok (create_error_result claim m, s1)
  else
    match parse_verification_response response.text claim intent with
    | .ok v => .ok (v, s1)
    | .error e => .error e

/-- The per-claim retrieval record built by
`_retrieve_evidence_for_claims`
(`llm_hallucination_correction/src/orchestrator.py`):
`{claim, retrieval_query, evidence, retrieval_timestamp}`. -/
structure EvidenceInfo where
  claim : PyStr
  retrieval_query : PyStr
  evidence : List Snippet
  retrieval_timestamp : PyStr
  deriving DecidableEq

/-- The direct no-evidence verification entry of `batch_verify`. -/
def unverified_entry (claim_id claim_text : PyStr) : JVal :=
  .jobj
    [("claim_id".toList, .jstr claim_id),
     ("claim".toList, .jstr claim_text),
     ("verdict".toList, .jstr "UNVERIFIED".toList),
     ("confidence".toList, .jnum 0),
     ("evidence_count".toList, .jnum 0),
     ("reasoning".toList, .jstr "未能检索到相关证据进行验证".toList),
     ("supporting_evidence".toList, .jarr []),
     ("contradicting_evidence".toList, .jarr [])]

/-- `batch_verify`: claims found in the evidence map are verified via
`verify_claim` (hence via a gateway call) — even when their retrieved
evidence list is empty — while claims absent from the map get the
direct UNVERIFIED/0.0 entry. -/
def batch_verify (claims : List Claim)
    (evidence_map : List (PyStr × EvidenceInfo)) (query intent : PyStr)
    (s : GwState) : Except PyErr (List JVal × GwState) :=
  match claims with
  | [] => .ok ([], s)
  | claim_info :: rest =>
    match claim_info.id with
    | none => .error (.keyError "id".toList)
    | some claim_id =>
      let claim_text := claim_info.text
      match evidence_map.lookup claim_id with
      | some evidence_info => do
        let evidence_snippets := evidence_info.evidence
        let (vr, s1) ← verify_claim claim_text evidence_snippets query intent s
        let vr1 ← pySetItem vr "claim_id".toList (.jstr claim_id)
        let vr2 ← pySetItem vr1 "evidence_count".toList
          (.jnum (evidence_snippets.length : ℚ))
        let (tail, s2) ← batch_verify rest evidence_map query intent s1
        .ok (vr2 :: tail, s2)
      | none => do
        let (tail, s1) ← batch_verify rest evidence_map query intent s
        .ok (unverified_entry claim_id claim_text :: tail, s1)

end EvidenceVerifier

/-! ### EvidenceEnhancedCorrectionOrchestrator — evidence retrieval
(`llm_hallucination_correction/src/orchestrator.py`) -/

/-- Generic association-list update with Python-dict semantics
(overwrite in place, else append). -/
def assocSet {α : Type} (kvs : List (PyStr × α)) (k : PyStr) (v : α) :
    List (PyStr × α) :=
  match kvs with
  | [] => [(k, v)]
  | (k0, v0) :: rest =>
    if k0 = k then (k0, v) :: rest else (k0, v0) :: assocSet rest k v

namespace LLMOrchestrator

/-- `_build_retrieval_query`: the intent-specific reformulation plus the
claim under verification. -/
def build_retrieval_query (original_query claim intent : PyStr)
    (s : GwState) : Except PyErr (PyStr × GwState) := do
  let (retrieval_prompt, s1) ←
    IntentClassifier.generate_retrieval_prompt original_query intent s
  .ok (retrieval_prompt ++ " 具体验证声明: ".toList ++ claim, s1)

/-- The loop body of `_retrieve_evidence_for_claims`, threading the
evidence map being built (a Python dict keyed by claim id).  The
configured `max_retrieved_docs`/`similarity_threshold` are forwarded to
the external store and are absorbed into the retriever oracle. -/
def retrieve_evidence_loop (query : PyStr) (claims : List Claim)
    (intent : PyStr) (retr : Retriever)
    (acc : List (PyStr × EvidenceVerifier.EvidenceInfo)) (s : GwState) :
    Except PyErr (List (PyStr × EvidenceVerifier.EvidenceInfo) × GwState) :=
  match claims with
  | [] => .ok (acc, s)
  | claim_info :: rest =>
    let claim_text := claim_info.text
    match claim_info.id with
    | none => .error (.keyError "id".toList)
    | some claim_id => do
      let (retrieval_query, s1) ←
        build_retrieval_query query claim_text intent s
      let evidence_snippets := retr retrieval_query
      let acc2 := assocSet acc claim_id
        { claim := claim_text, retrieval_query := retrieval_query,
          evidence := evidence_snippets,
          retrieval_timestamp := EvidenceVerifier.get_timestamp }
      retrieve_evidence_loop query rest intent retr acc2 s1

/-- `_retrieve_evidence_for_claims`. -/
def retrieve_evidence_for_claims (query : PyStr) (claims : List Claim)
    (intent : PyStr) (retr : Retriever) (s : GwState) :
    Except PyErr (List (PyStr × EvidenceVerifier.EvidenceInfo) × GwState) :=
  retrieve_evidence_loop query claims intent retr [] s

end LLMOrchestrator

/-! ### Further Python-value helpers used by the correction and
reporting stages -/

/-- Decimal rendering of an integer. -/
def intToStr (z : ℤ) : PyStr :=
  if z < 0 then '-' :: natToStr (-z).toNat else natToStr z.toNat

/-- Python `str()` of a number.  Integral values render as integers;
other rationals render by their exact finite decimal expansion when one
exists (CPython prints the shortest float repr, which agrees on the
exactly representable values arising here), else as a fraction. -/
def qToStr (q : ℚ) : PyStr :=
  if q.den = 1 then intToStr q.num
  else
    match (List.range 40).find? (fun k => (q * (10 : ℚ) ^ k).den = 1) with
    | some k =>
      let scaled := (q * (10 : ℚ) ^ k).num
      let sign : PyStr := if scaled < 0 then ['-'] else []
      let m := scaled.natAbs
      let ip := m / 10 ^ k
      let fpd := natToStr (m % 10 ^ k)
      sign ++ natToStr ip ++ ".".toList
        ++ (List.replicate (k - fpd.length) '0' ++ fpd)
    | none => intToStr q.num ++ "/".toList ++ natToStr q.den

mutual

/-- Python `repr()` of a decoded JSON value. -/
def pyRepr (v : JVal) : PyStr :=
  match v with
  | .jstr s => Char.ofNat 39 :: s ++ [Char.ofNat 39]
  | .jnum q => qToStr q
  | .jbool b => if b then "True".toList else "False".toList
  | .jnull => "None".toList
  | .jarr xs => '[' :: pyJoin ", ".toList (pyReprList xs) ++ "]".toList
  | .jobj kvs => '\x7b' :: pyJoin ", ".toList (pyReprPairs kvs) ++ ['\x7d']

/-- `repr` of each element of a list. -/
def pyReprList (xs : List JVal) : List PyStr :=
  match xs with
  | [] => []
  | x :: rest => pyRepr x :: pyReprList rest

/-- `repr` of each `key: value` pair of a dict. -/
def pyReprPairs (kvs : List (PyStr × JVal)) : List PyStr :=
  match kvs with
  | [] => []
  | (k, v) :: rest =>
    ((Char.ofNat 39 :: k ++ [Char.ofNat 39]) ++ ": ".toList ++ pyRepr v)
      :: pyReprPairs rest

end

/-- Python `str()` of a decoded JSON value (as interpolated into
f-strings): strings verbatim, containers via `repr`. -/
def pyStrOf (v : JVal) : PyStr :=
  match v with
  | .jstr s => s
  | _ => pyRepr v

/-- Python truthiness of a decoded JSON value. -/
def pyTruthy (v : JVal) : Bool :=
  match v with
  | .jstr s => ¬ s.isEmpty
  | .jnum q => q ≠ 0
  | .jbool b => b
  | .jnull => false
  | .jarr xs => ¬ xs.isEmpty
  | .jobj kvs => ¬ kvs.isEmpty

/-- Python `len()` of a decoded JSON value. -/
def pyLenJ (v : JVal) : Except PyErr Nat :=
  match v with
  | .jstr s => .ok s.length
  | .jarr xs => .ok xs.length
  | .jobj kvs => .ok kvs.length
  | _ => .error (.typeError "object has no len".toList)

/-- Python slicing `x[:n]` of a decoded JSON value. -/
def pySliceJ (n : Nat) (v : JVal) : Except PyErr JVal :=
  match v with
  | .jstr s => .ok (.jstr (s.take n))
  | .jarr xs => .ok (.jarr (xs.take n))
  | _ => .error (.typeError "not subscriptable".toList)

/-- Python `x.get(k, d)` where `x` must be a dict. -/
def jGetD (v : JVal) (k : PyStr) (d : JVal) : Except PyErr JVal :=
  match v with
  | .jobj kvs => .ok ((pyDictGet kvs k).getD d)
  | _ => .error (.attributeError "object has no attribute get".toList)

/-- Numeric coercion used by Python `+` when summing `x.get(...)`
values: numbers and bools add, everything else raises. -/
def jNumOf (v : JVal) : Except PyErr ℚ :=
  match v with
  | .jnum q => .ok q
  | .jbool b => .ok (if b then 1 else 0)
  | _ => .error (.typeError "unsupported operand".toList)

/-- Python `f"{x:.Nf}"` applied to a dynamic value: numbers and bools
format, everything else raises. -/
def formatFixedJ (prec : Nat) (v : JVal) : Except PyErr PyStr :=
  match v with
  | .jnum q => .ok (EvidenceVerifier.formatFixed prec q)
  | .jbool b => .ok (EvidenceVerifier.formatFixed prec (if b then 1 else 0))
  | .jstr _ => .error (.valueError "unknown format code".toList)
  | _ => .error (.typeError "unsupported format string".toList)

/-- `str.format(**fields)` for the templates of this code base: each
`\x7bname\x7d` placeholder is replaced by the corresponding field in a
single pass (substituted text is not rescanned), and doubled braces
denote literal braces. -/
def pyFormatMap (fields : List (PyStr × PyStr)) (s : PyStr) : PyStr :=
  match s with
  | [] => []
  | '\x7b' :: '\x7b' :: rest => '\x7b' :: pyFormatMap fields rest
  | '\x7d' :: '\x7d' :: rest => '\x7d' :: pyFormatMap fields rest
  | '\x7b' :: rest =>
    let name := rest.takeWhile (· ≠ '\x7d')
    let after := (rest.dropWhile (· ≠ '\x7d')).drop 1
    (fields.lookup name).getD [] ++ pyFormatMap fields after
  | c :: rest => c :: pyFormatMap fields rest
  termination_by s.length
  decreasing_by
  all_goals simp_wf
  all_goals try omega
  all_goals
    (have h := (List.dropWhile_suffix
        (l := rest) (fun x => !decide (x = '\x7d'))).sublist.length_le
     try simp only [List.length_drop]
     omega)

/-- Python `str(e)` of the modelled exceptions (`KeyError` renders the
missing key in quotes). -/
def pyErrStr (e : PyErr) : PyStr :=
  match e with
  | .keyError k => Char.ofNat 39 :: k ++ [Char.ofNat 39]
  | .typeError m => m
  | .valueError m => m
  | .attributeError m => m
  | .zeroDivisionError => "division by zero".toList

/-! ### PromptTemplates (`src/llm/prompt_templates.py`) — the two
templates the orchestrator stages use. -/

namespace PromptTemplates

/-- `INITIAL_ANSWER_TEMPLATE`. -/
def INITIAL_ANSWER_TEMPLATE : PyStr :=
  "\n    请直接回答以下问题，不需要进行事实核查或验证，提供您认为最合适的答案。\n\n    问题: \x7bquestion\x7d\n    \n    请提供详细、全面的回答，包括所有相关信息和背景知识：\n    ".toList

/-- `get_initial_answer_prompt`. -/
def get_initial_answer_prompt (question : PyStr) : PyStr :=
  pyFormatMap [("question".toList, question)] INITIAL_ANSWER_TEMPLATE

/-- `HALLUCINATION_DETECTION_TEMPLATE`. -/
def HALLUCINATION_DETECTION_TEMPLATE : PyStr :=
  "\n    作为幻觉检测专家，请分析以下AI回答是否存在幻觉（虚构、不准确或缺乏证据支持的内容）。\n    \n    ## 检测标准\n    - **事实性幻觉**: 陈述与可验证事实不符\n    - **逻辑性幻觉**: 推理过程存在矛盾或不合逻辑\n    - **证据性幻觉**: 缺乏可靠证据支持的关键声明\n    - **一致性幻觉**: 与已知信息或上下文不一致\n    \n    ## 分析材料\n    原始问题: \"\x7bquestion\x7d\"\n    AI初始回答: \"\x7binitial_answer\x7d\"\n    验证后回答: \"\x7bverified_answer\x7d\"\n    支持证据: \"\x7bevidence\x7d\"\n    \n    ## 检测要求\n    请按以下JSON格式输出检测结果：\n    \x7b\x7b\n        \"has_hallucination\": true|false,\n        \"hallucination_type\": \"FACTUAL|LOGICAL|EVIDENTIAL|CONSISTENCY|MIXED|NONE\",\n        \"confidence\": 0.0-1.0,\n        \"affected_sections\": [\n            \x7b\x7b\n                \"text\": \"存在幻觉的文本片段\",\n                \"type\": \"幻觉类型\",\n                \"severity\": \"LOW|MEDIUM|HIGH\",\n                \"correction\": \"建议修正内容\"\n            \x7d\x7d\n        ],\n        \"comparison_analysis\": \x7b\x7b\n            \"initial_answer_quality\": \"评估初始回答质量\",\n            \"verification_impact\": \"验证过程带来的改进\",\n            \"key_differences\": \"主要差异点分析\",\n            \"overall_improvement\": \"整体改善程度评估\"\n        \x7d\x7d,\n        \"recommendations\": [\n            \"改进建议1\",\n            \"改进建议2\"\n        ]\n    \x7d\x7d\n    ".toList

/-- `get_hallucination_detection_prompt`. -/
def get_hallucination_detection_prompt
    (question initial_answer verified_answer evidence : PyStr) : PyStr :=
  pyFormatMap
    [("question".toList, question), ("initial_answer".toList, initial_answer),
     ("verified_answer".toList, verified_answer), ("evidence".toList, evidence)]
    HALLUCINATION_DETECTION_TEMPLATE

end PromptTemplates

/-! ### AnswerCorrector (`src/correction/answer_corrector.py`) -/

namespace AnswerCorrector

/-- `_get_factual_correction_template`. -/
def factual_correction_template : PyStr :=
  "\n        作为事实核查专家，请根据验证结果重新生成一个准确的事实性答案。\n\n        查询意图：\x7bintent\x7d - 事实查询\n        原始查询：\"\x7bquery\x7d\"\n        原始答案：\x7boriginal_answer\x7d\n\n        验证结果摘要：\n        \x7bverification_summary\x7d\n\n        请生成修正后的答案，要求：\n        1. 严格基于验证证据，不添加未经证实的信息\n        2. 保持客观、准确、简洁的专业风格\n        3. 如果某些声明无法验证或存在矛盾，请明确说明局限性\n        4. 优先使用支持度高的证据，对矛盾证据进行说明\n        5. 保持答案的完整性和连贯性\n\n        修正后的答案应直接回答原始查询，同时体现验证过程的严谨性。\n\n        修正后的答案：\n        ".toList

/-- `_get_comparison_correction_template`. -/
def comparison_correction_template : PyStr :=
  "\n        作为比较分析专家，请根据验证结果重新生成一个全面准确的比较性答案。\n\n        查询意图：\x7bintent\x7d - 比较查询  \n        原始查询：\"\x7bquery\x7d\"\n        原始答案：\x7boriginal_answer\x7d\n\n        验证结果摘要：\n        \x7bverification_summary\x7d\n\n        请生成修正后的比较分析，要求：\n        1. 确保比较维度的全面性和平衡性，避免偏颇\n        2. 基于证据提供具体的对比点和数据支持\n        3. 客观呈现各方的优势和劣势\n        4. 如果某些比较点缺乏充分证据，请谨慎表述并说明不确定性\n        5. 提供有依据的结论或建议\n\n        修正后的比较分析应具有结构化的对比框架和基于证据的判断。\n\n        修正后的比较分析：\n        ".toList

/-- `_get_method_correction_template` (with its verbatim stray
`极速模式` typo). -/
def method_correction_template : PyStr :=
  "\n        作为方法指导专家，请根据验证结果重新生成一个可操作的方法指南。\n\n        查询意图：\x7bintent\x7d - 方法查询\n        原始查询：\"\x7bquery\x7d\"\n        原始答案：\x7boriginal_answer\x7d\n\n        验证结果摘要：\n        \x7bverification_summary\x7d\n\n        请生成修正后的方法指南，要求：\n        1. 确保步骤的可行性、正确性和安全性\n        2. 提供清晰、有序的操作指引\n        3. 基于验证证据调整或完善有问题的步骤\n        极速模式4. 包含必要的注意事项和常见问题解决方案\n        5. 如果某些方法步骤缺乏充分验证，请注明其不确定性\n\n        修正后的方法指南应具有实用性和可操作性。\n\n        修正后的方法指南：\n        ".toList

/-- `_get_opinion_correction_template`. -/
def opinion_correction_template : PyStr :=
  "\n        作为观点综述专家，请根据验证结果重新生成一个平衡客观的观点综述。\n\n        查询意图：\x7bintent\x7d - 观点查询\n        原始查询：\"\x7bquery\x7d\"\n        原始答案：\x7boriginal_answer\x7d\n\n        验证结果摘要：\n        \x7bverification_summary\x7d\n\n        请生成修正后的观点综述，要求：\n        1. 全面、平衡地呈现不同的观点立场和论据\n        2. 基于证据客观表述各方观点，避免主观偏向\n        3. 明确区分事实性内容和观点性内容\n        4. 如果某些观点缺乏充分证据支持，请说明其争议性\n        5. 提供基于证据的综合分析或趋势判断\n\n        修正后的观点综述应体现多元视角和客观分析。\n\n        修正后的观点综述：\n        ".toList

/-- `self.correction_templates`. -/
def correction_templates : List (PyStr × PyStr) :=
  [("事实查询".toList, factual_correction_template),
   ("比较查询".toList, comparison_correction_template),
   ("方法查询".toList, method_correction_template),
   ("观点查询".toList, opinion_correction_template)]

/-- `len([v for v in verifications if v.get('verdict') == verdict])`. -/
def countVerdict (vs : List JVal) (verdict : PyStr) : Except PyErr Nat :=
  match vs with
  | [] => .ok 0
  | v :: rest => do
    let w ← jGetD v "verdict".toList .jnull
    let n ← countVerdict rest verdict
    .ok (n + (match w with
              | .jstr s => if s = verdict then 1 else 0
              | _ => 0))

/-- One verification's lines in `_prepare_verification_summary`
(`i` counts from 1). -/
def summary_item (i : Nat) (v : JVal) : Except PyErr (List PyStr) := do
  let claim ← jGetD v "claim".toList (.jstr ("声明".toList ++ natToStr i))
  let verdict ← jGetD v "verdict".toList (.jstr "UNVERIFIED".toList)
  let confidence ← jGetD v "confidence".toList (.jnum 0)
  let reasoning ← jGetD v "reasoning".toList (.jstr "无详细推理".toList)
  let confStr ← formatFixedJ 2 confidence
  let sup ← jGetD v "supporting_evidence".toList (.jarr [])
  let con ← jGetD v "contradicting_evidence".toList (.jarr [])
  let supPart ← if pyTruthy sup then do
      let n ← pyLenJ sup
      pure ["支持证据: ".toList ++ natToStr n ++ "条".toList]
    else pure ([] : List PyStr)
  let conPart ← if pyTruthy con then do
      let n ← pyLenJ con
      pure ["矛盾证据: ".toList ++ natToStr n ++ "条".toList]
    else pure ([] : List PyStr)
  let rlen ← pyLenJ reasoning
  let reasonPart ←
    if 100 < rlen then do
      let rs ← pySliceJ 100 reasoning
      pure ("推理: ".toList ++ pyStrOf rs ++ "...".toList)
    else pure ("推理: ".toList ++ pyStrOf reasoning)
  .ok (["声明".toList ++ natToStr i ++ ": ".toList ++ pyStrOf claim,
        "验证结果: ".toList ++ pyStrOf verdict ++ " (置信度: ".toList
          ++ confStr ++ ")".toList]
       ++ supPart ++ conPart ++ [reasonPart, "---".toList])

/-- The enumeration loop of `_prepare_verification_summary`. -/
def summary_loop (i : Nat) (vs : List JVal) : Except PyErr (List PyStr) :=
  match vs with
  | [] => .ok []
  | v :: rest => do
    let item ← summary_item i v
    let tail ← summary_loop (i + 1) rest
    .ok (item ++ tail)

/-- `_prepare_verification_summary`. -/
def prepare_verification_summary (verifications : List JVal) :
    Except PyErr PyStr :=
  if verifications.isEmpty then .ok "没有进行声明验证或验证全部失败。".toList
  else do
    let parts ← summary_loop 1 verifications
    .ok (pyJoin "\n".toList parts)

/-- The dict returned by `correct_answer`. -/
structure CorrectionResult where
  corrected_answer : PyStr
  original_answer : PyStr
  query : PyStr
  intent : PyStr
  verifications_count : Nat
  supported_claims : Nat
  contradicted_claims : Nat
  correction_metadata : JVal

/-- `correct_answer`. -/
def correct_answer (original_answer : PyStr) (verifications : List JVal)
    (query intent : PyStr) (s : GwState) :
    Except PyErr (CorrectionResult × GwState) := do
  let template := (correction_templates.lookup intent).getD
    factual_correction_template
  let verification_summary ← prepare_verification_summary verifications
  let prompt := pyFormatMap
    [("query".toList, query), ("intent".toList, intent),
     ("original_answer".toList, original_answer),
     ("verification_summary".toList, verification_summary)] template
  let (response, s1) := callWithRetry prompt s
  let corrected_text :=
    if response.error then
      "纠正过程出错: ".toList ++ (response.getErrorMessage.getD "未知错误".toList)
    else response.text
  let supported ← countVerdict verifications "SUPPORTED".toList
  let contradicted ← countVerdict verifications "CONTRADICTED".toList
  .ok ({ corrected_answer := corrected_text,
         original_answer := original_answer, query := query,
         intent := intent, verifications_count := verifications.length,
         supported_claims := supported, contradicted_claims := contradicted,
         correction_metadata := response.usage }, s1)

end AnswerCorrector

/-! ### PipelineOrchestrator (`src/core/orchestrator.py`)

The stage bodies below follow `process_query` and its private stage
helpers.  Wall-clock durations and the per-stage metadata dicts feed
only logging/metadata fields that no claim concerns; the execution log
is therefore modelled by its ordered key list, which is all
`_identify_error_step` reads.  The `src/verification` intent-classifier
and claim-extractor modules this orchestrator imports are absent from
the tree; per the spec (§4.3, §4.4) they behave as the sibling
implementations embedded above, which are used here. -/

namespace CoreOrchestrator

/-- The per-claim retrieval record built by `_retrieve_evidence`:
`{claim, evidence, retrieval_query}`. -/
structure CoreEvidenceInfo where
  claim : PyStr
  evidence : List Snippet
  retrieval_query : PyStr
  deriving DecidableEq

/-- Modelled from the spec: `ClaimExtractor.validate_claims`
(`src/verification/claim_extractor.py`) is absent from the tree and the
spec records no behaviour for it beyond stage metadata capture; it is
modelled as a total metrics computation whose result feeds only the
dropped stage metadata. -/
def validate_claims (_claims : List Claim) : JVal := .jobj []

/-- `_generate_initial_answer` (metadata dropped): builds the initial
answer prompt, optionally prefixed by the context, and reads
`response['text']` — a key both documented response shapes carry. -/
def generate_initial_answer (query : PyStr) (context : Option PyStr)
    (s : GwState) : PyStr × GwState :=
  let prompt := PromptTemplates.get_initial_answer_prompt query
  let prompt :=
    match context with
    | some c => "上下文: ".toList ++ c ++ "\n\n".toList ++ prompt
    | none => prompt
  let (response, s1) := callWithRetry prompt s
  (response.text, s1)

/-- The loop of `_retrieve_evidence`: per claim, `claim['id']` (a
`KeyError` when absent), a `"{query} {claim_text}"` retrieval query,
and a dict update keyed by claim id. -/
def retrieve_evidence_loop (query : PyStr) (claims : List Claim)
    (retr : Retriever) (acc : List (PyStr × CoreEvidenceInfo)) :
    Except PyErr (List (PyStr × CoreEvidenceInfo)) :=
  match claims with
  | [] => .ok acc
  | claim :: rest =>
    match claim.id with
    | none => .error (.keyError "id".toList)
    | some claim_id =>
      let claim_text := claim.text
      let rq := query ++ " ".toList ++ claim_text
      let evidence_snippets := retr rq
      retrieve_evidence_loop query rest retr
        (assocSet acc claim_id
          { claim := claim_text, evidence := evidence_snippets,
            retrieval_query := rq })

/-- `_retrieve_evidence` (metadata dropped). -/
def retrieve_evidence (query : PyStr) (claims : List Claim)
    (retr : Retriever) : Except PyErr (List (PyStr × CoreEvidenceInfo)) :=
  retrieve_evidence_loop query claims retr []

/-- The direct no-evidence verification entry of `_verify_claims`. -/
def core_unverified_entry (claim_id claim_text : PyStr) : JVal :=
  .jobj
    [("claim_id".toList, .jstr claim_id),
     ("claim".toList, .jstr claim_text),
     ("verdict".toList, .jstr "UNVERIFIED".toList),
     ("confidence".toList, .jnum 0),
     ("reasoning".toList, .jstr "未能检索到相关证据进行验证".toList)]

/-- The loop of `_verify_claims` (the supported/contradicted tallies
feed only dropped stage metadata). -/
def verify_claims_loop (claims : List Claim)
    (evidence_map : List (PyStr × CoreEvidenceInfo)) (query intent : PyStr)
    (s : GwState) : Except PyErr (List JVal × GwState) :=
  match claims with
  | [] => .ok ([], s)
  | claim :: rest =>
    match claim.id with
    | none => .error (.keyError "id".toList)
    | some claim_id =>
      match evidence_map.lookup claim_id with
      | some evidence_info => do
        let (vr, s1) ← EvidenceVerifier.verify_claim claim.text
          evidence_info.evidence query intent s
        let (tail, s2) ← verify_claims_loop rest evidence_map query intent s1
        .ok (vr :: tail, s2)
      | none => do
        let (tail, s1) ← verify_claims_loop rest evidence_map query intent s
        .ok (core_unverified_entry claim_id claim.text :: tail, s1)

/-- `_prepare_evidence_text`. -/
def prepare_evidence_text (evidence_map : List (PyStr × CoreEvidenceInfo)) :
    PyStr :=
  let parts := evidence_map.foldr (fun kv acc =>
    ("声明: ".toList ++ kv.2.claim)
    :: (kv.2.evidence.enum.map (fun ie =>
          "证据".toList ++ natToStr (ie.1 + 1) ++ ": ".toList ++ ie.2.text
          ++ " (相似度: ".toList
          ++ EvidenceVerifier.formatFixed 3 ie.2.similarity ++ ")".toList))
    ++ ([] : PyStr) :: acc) []
  pyJoin "\n".toList parts

/-- `_detect_hallucinations` (metadata dropped): one gateway call, a
strict `json.loads` of the whole response text, and the documented
fallback dict on parse failure. -/
def detect_hallucinations (query initial_answer corrected_answer : PyStr)
    (evidence_map : List (PyStr × CoreEvidenceInfo)) (s : GwState) :
    JVal × GwState :=
  let evidence_text := prepare_evidence_text evidence_map
  let prompt := PromptTemplates.get_hallucination_detection_prompt
    query initial_answer corrected_answer evidence_text
  let (response, s1) := callWithRetry prompt s
  let analysis :=
    match jsonLoads response.text with
    | some v => v
    | none =>
      .jobj [("has_hallucination".toList, .jbool false),
             ("error".toList, .jstr "无法解析幻觉检测结果".toList),
             ("raw_response".toList, .jstr (response.text.take 200))]
  (analysis, s1)

/-- `_calculate_evidence_coverage`. -/
def calculate_evidence_coverage (claims : List Claim)
    (evidence_map : List (PyStr × CoreEvidenceInfo)) : Except PyErr ℚ :=
  if claims.isEmpty then .ok 0
  else do
    let covered ← claims.foldlM (fun acc c =>
      match c.id with
      | none => .error (.keyError "id".toList)
      | some i => .ok (acc + if (evidence_map.lookup i).isSome then 1 else 0)) 0
    .ok ((covered : ℚ) / (claims.length : ℚ))

/-- `sum(v.get('confidence', 0) for v in verifications)`. -/
def sum_confidence (vs : List JVal) : Except PyErr ℚ :=
  match vs with
  | [] => .ok 0
  | v :: rest => do
    let c ← jGetD v "confidence".toList (.jnum 0)
    let q ← jNumOf c
    let t ← sum_confidence rest
    .ok (q + t)

/-- `_calculate_average_confidence`. -/
def calculate_average_confidence (verifications : List JVal) :
    Except PyErr ℚ :=
  if verifications.isEmpty then .ok 0
  else do
    let total ← sum_confidence verifications
    .ok (total / (verifications.length : ℚ))

/-- `_calculate_improvement_metric`; note the
`len(results.get('verifications', [1]))` denominator, which divides by
zero when the verification list is empty. -/
def calculate_improvement_metric (initial_answer corrected_answer : PyStr)
    (verifications : List JVal) : Except PyErr ℚ :=
  if initial_answer.length = 0 then .ok 0
  else do
    let length_ratio : ℚ :=
      (corrected_answer.length : ℚ) / (initial_answer.length : ℚ)
    let sup ← AnswerCorrector.countVerdict verifications "SUPPORTED".toList
    if verifications.length = 0 then .error .zeroDivisionError
    else .ok ((length_ratio + (sup : ℚ) / (verifications.length : ℚ)) / 2)

/-- `_generate_recommendations`. -/
def generate_recommendations (claims : List Claim)
    (evidence_map : List (PyStr × CoreEvidenceInfo))
    (verifications : List JVal) (analysis : JVal) :
    Except PyErr (List PyStr) := do
  let hal ← jGetD analysis "has_hallucination".toList .jnull
  let recs1 :=
    if pyTruthy hal then ["检测到潜在幻觉，建议增加证据检索范围".toList] else []
  let coverage ← calculate_evidence_coverage claims evidence_map
  let recs2 :=
    if coverage < 1/2 then recs1 ++ ["证据覆盖率较低，建议扩充知识库".toList]
    else recs1
  let sup ← AnswerCorrector.countVerdict verifications "SUPPORTED".toList
  if verifications.length = 0 then .error .zeroDivisionError
  else
    let ratio : ℚ := (sup : ℚ) / (verifications.length : ℚ)
    let recs3 :=
      if ratio < 7/10 then recs2 ++ ["支持声明比例较低，建议优化检索策略".toList]
      else recs2
    .ok (if recs3.isEmpty then ["回答质量良好，继续保持".toList] else recs3)

/-- `_generate_final_report` (over the `results` entries the success
path has accumulated; `results.get('query')` was never written and is
`None`). -/
def generate_final_report (initial_answer corrected_answer intent : PyStr)
    (claims : List Claim) (evidence_map : List (PyStr × CoreEvidenceInfo))
    (verifications : List JVal) (analysis : JVal) : Except PyErr JVal := do
  let supCount ← AnswerCorrector.countVerdict verifications "SUPPORTED".toList
  let hal ← jGetD analysis "has_hallucination".toList (.jbool false)
  let improvement ← calculate_improvement_metric initial_answer
    corrected_answer verifications
  let coverage ← calculate_evidence_coverage claims evidence_map
  let avgConf ← calculate_average_confidence verifications
  let recs ← generate_recommendations claims evidence_map verifications analysis
  .ok (.jobj
    [("summary".toList, .jobj
       [("query".toList, .jnull),
        ("intent".toList, .jstr intent),
        ("initial_answer_length".toList, .jnum (initial_answer.length : ℚ)),
        ("corrected_answer_length".toList, .jnum (corrected_answer.length : ℚ)),
        ("total_claims".toList, .jnum (claims.length : ℚ)),
        ("supported_claims".toList, .jnum (supCount : ℚ)),
        ("has_hallucination".toList, hal)]),
     ("quality_metrics".toList, .jobj
       [("answer_improvement".toList, .jnum improvement),
        ("evidence_coverage".toList, .jnum coverage),
        ("verification_confidence".toList, .jnum avgConf)]),
     ("recommendations".toList, .jarr (recs.map (fun r => .jstr r)))])

/-- `_identify_error_step`: the last key of the execution log, or
`initialization` when no stage completed. -/
def identify_error_step (execution_steps : List PyStr) : PyStr :=
  match execution_steps with
  | [] => "initialization".toList
  | _ => execution_steps.getLastD "initialization".toList

/-- The `results` accumulated by a fully successful run. -/
structure CoreResults where
  initial_answer : PyStr
  intent : PyStr
  claims : List Claim
  evidence_map : List (PyStr × CoreEvidenceInfo)
  verifications : List JVal
  corrected_answer : PyStr
  hallucination_analysis : JVal
  final_report : JVal

/-- The value of `process_query`: either the success dict or the
failure dict built in the `except` handler. -/
structure RunResult where
  success : Bool
  query : PyStr
  error : Option PyStr
  error_step : Option PyStr
  results : Option CoreResults
  steps_completed : List PyStr

/-- The failure dict of the `except` handler. -/
def failedRun (query : PyStr) (e : PyErr) (execution_steps : List PyStr) :
    RunResult :=
  { success := false, query := query, error := some (pyErrStr e),
    error_step := some (identify_error_step execution_steps),
    results := none, steps_completed := [] }

/-- `process_query`: the eight stages in order inside one try/except;
each stage appends its key to the execution log only after completing,
and an escaped exception produces the failure dict naming
`_identify_error_step` of the log accumulated so far. -/
def process_query (cfg : IntentConfig) (query : PyStr)
    (context : Option PyStr) (retr : Retriever) (s : GwState) : RunResult :=
  let (initial_answer, s1) := generate_initial_answer query context s
  let steps1 := ["initial_answer_generation".toList]
  let (intent, s2) := IntentClassifier.classify_intent cfg query s1
  let steps2 := steps1 ++ ["intent_classification".toList]
  let (claims, s3) := ClaimExtractor.extract_claims initial_answer s2
  let _validation := validate_claims claims
  let steps3 := steps2 ++ ["claim_extraction".toList]
  match retrieve_evidence query claims retr with
  | .error e => failedRun query e steps3
  | .ok evidence_map =>
    let steps4 := steps3 ++ ["evidence_retrieval".toList]
    match verify_claims_loop claims evidence_map query intent s3 with
    | .error e => failedRun query e steps4
    | .ok (verifications, s4) =>
      let steps5 := steps4 ++ ["claim_verification".toList]
      match AnswerCorrector.correct_answer initial_answer verifications
        query intent s4 with
      | .error e => failedRun query e steps5
      | .ok (correction_result, s5) =>
        let corrected_answer := correction_result.corrected_answer
        let steps6 := steps5 ++ ["answer_correction".toList]
        let (analysis, _s6) := detect_hallucinations query initial_answer
          corrected_answer evidence_map s5
        let steps7 := steps6 ++ ["hallucination_detection".toList]
        match generate_final_report initial_answer corrected_answer intent
          claims evidence_map verifications analysis with
        | .error e => failedRun query e steps7
        | .ok report =>
          { success := true, query := query, error := none,
            error_step := none,
            results := some
              { initial_answer := initial_answer, intent := intent,
                claims := claims, evidence_map := evidence_map,
                verifications := verifications,
                corrected_answer := corrected_answer,
                hallucination_analysis := analysis, final_report := report },
            steps_completed := steps7 }

end CoreOrchestrator

/-! ### Shared projections and lemmas for the claim proofs -/

/-- The verdict string of a verification dict, when one is present. -/
def verdictOf (v : JVal) : Option PyStr :=
  match v with
  | .jobj kvs =>
    match pyDictGet kvs "verdict".toList with
    | some (.jstr s) => some s
    | _ => none
  | _ => none

/-- The confidence number of a verification dict, when one is present. -/
def confidenceOf (v : JVal) : Option ℚ :=
  match v with
  | .jobj kvs =>
    match pyDictGet kvs "confidence".toList with
    | some (.jnum q) => some q
    | _ => none
  | _ => none

/-- The closed four-value verdict set of the specification. -/
def verdict_set : List PyStr :=
  ["SUPPORTED".toList, "CONTRADICTED".toList,
   "PARTIALLY_SUPPORTED".toList, "UNVERIFIED".toList]

theorem fallback_extraction_ne_nil (text : PyStr) :
    ClaimExtractor.fallback_extraction text ≠ [] := by
  unfold ClaimExtractor.fallback_extraction
  dsimp only
  split
  · simp
  · simp_all [List.isEmpty_iff]

/-- C6 — For every input text and every gateway behaviour (error
responses and unparseable responses included), `extract_claims` returns
a non-empty list of claims. -/
theorem extract_claims_never_empty (text : PyStr) (s : GwState) :
    (ClaimExtractor.extract_claims text s).1 ≠ [] := by
  unfold ClaimExtractor.extract_claims
  split
  · simp
  · dsimp only
    split
    · exact fallback_extraction_ne_nil text
    · unfold ClaimExtractor.parse_claims_response
      dsimp only
      split
      · exact fallback_extraction_ne_nil text
      · simp_all [List.isEmpty_iff]

/-- C8 — An input whose trimmed length is under 10 characters
short-circuits to the single whole-text claim with confidence 1.0 and
atomic=true, and the gateway state is untouched (no call issued). -/
theorem extract_claims_short_input (text : PyStr) (s : GwState)
    (h : (pyStrip text).length < 10) :
    ClaimExtractor.extract_claims text s =
      ([{ id := none, text := text, confidence := 1, atomic := true,
          original_position := none }], s) := by
  unfold ClaimExtractor.extract_claims
  rw [if_pos (Or.inr h)]

/-- Witness for C8 at a concrete 3-character input. -/
theorem extract_claims_short_input_witness :
    (pyStrip "短文本".toList).length < 10 ∧
    ClaimExtractor.extract_claims "短文本".toList { script := [], calls := 5 } =
      ([{ id := none, text := "短文本".toList, confidence := 1, atomic := true,
          original_position := none }], { script := [], calls := 5 }) :=
  ⟨by decide, extract_claims_short_input "短文本".toList _ (by decide)⟩

/-- C9 (amended) — `classify_intent` always returns either a member of
the configured `supported_intents` or the configured `default_intent`;
membership in the configured intent set itself is guaranteed only when
the default intent belongs to it. -/
theorem classify_intent_supported_or_default (cfg : IntentConfig)
    (query : PyStr) (s : GwState) :
    (IntentClassifier.classify_intent cfg query s).1 ∈ cfg.supported_intents ∨
    (IntentClassifier.classify_intent cfg query s).1 = cfg.default_intent := by
  unfold IntentClassifier.classify_intent
  dsimp only
  split
  · exact Or.inr rfl
  · split
    · next h => exact Or.inl h
    · exact Or.inr rfl

/-- Counterexample to C9 as stated: with an empty configured intent set
(and the built-in default), a gateway error makes `classify_intent`
return the default intent, which is not a member of the configured
set. -/
theorem classify_intent_counterexample :
    (IntentClassifier.classify_intent
      { supported_intents := [], default_intent := "事实查询".toList }
      "什么是Python".toList { script := [], calls := 0 }).1
      = "事实查询".toList ∧
    "事实查询".toList ∉
      ({ supported_intents := [], default_intent := "事实查询".toList
         : IntentConfig }).supported_intents :=
  ⟨rfl, by simp⟩

theorem pyDictGet_pyDictSet_ne (kvs : List (PyStr × JVal)) (k w : PyStr)
    (v : JVal) (h : k ≠ w) :
    pyDictGet (pyDictSet kvs k v) w = pyDictGet kvs w := by
  induction kvs with
  | nil => simp [pyDictSet, pyDictGet, h]
  | cons kv rest ih =>
    obtain ⟨k0, v0⟩ := kv
    by_cases hk : k0 = k
    · subst hk
      simp [pyDictSet, pyDictGet, h]
    · simp only [pyDictSet, if_neg hk, pyDictGet]
      by_cases hw : k0 = w
      · simp [hw]
      · simp [hw, ih]

theorem defaultListField_preserves (kvs : List (PyStr × JVal)) (f w : PyStr)
    (h : f ≠ w) :
    ∃ kvs2, EvidenceVerifier.defaultListField (.jobj kvs) f = .ok (.jobj kvs2)
      ∧ pyDictGet kvs2 w = pyDictGet kvs w := by
  cases hg : pyDictGet kvs f with
  | none =>
    refine ⟨pyDictSet kvs f (.jarr []), ?_, pyDictGet_pyDictSet_ne kvs f w _ h⟩
    unfold EvidenceVerifier.defaultListField EvidenceVerifier.pyContains
      EvidenceVerifier.pyGetItem EvidenceVerifier.pySetItem
    dsimp only
    rw [hg]
    rfl
  | some x =>
    cases x with
    | jarr xs =>
      refine ⟨kvs, ?_, rfl⟩
      unfold EvidenceVerifier.defaultListField EvidenceVerifier.pyContains
        EvidenceVerifier.pyGetItem EvidenceVerifier.pySetItem
      dsimp only
      rw [hg]
      rfl
    | jstr s =>
      refine ⟨pyDictSet kvs f (.jarr []), ?_,
        pyDictGet_pyDictSet_ne kvs f w _ h⟩
      unfold EvidenceVerifier.defaultListField EvidenceVerifier.pyContains
        EvidenceVerifier.pyGetItem EvidenceVerifier.pySetItem
      dsimp only
      rw [hg]
      rfl
    | jnum q =>
      refine ⟨pyDictSet kvs f (.jarr []), ?_,
        pyDictGet_pyDictSet_ne kvs f w _ h⟩
      unfold EvidenceVerifier.defaultListField EvidenceVerifier.pyContains
        EvidenceVerifier.pyGetItem EvidenceVerifier.pySetItem
      dsimp only
      rw [hg]
      rfl
    | jbool b =>
      refine ⟨pyDictSet kvs f (.jarr []), ?_,
        pyDictGet_pyDictSet_ne kvs f w _ h⟩
      unfold EvidenceVerifier.defaultListField EvidenceVerifier.pyContains
        EvidenceVerifier.pyGetItem EvidenceVerifier.pySetItem
      dsimp only
      rw [hg]
      rfl
    | jnull =>
      refine ⟨pyDictSet kvs f (.jarr []), ?_,
        pyDictGet_pyDictSet_ne kvs f w _ h⟩
      unfold EvidenceVerifier.defaultListField EvidenceVerifier.pyContains
        EvidenceVerifier.pyGetItem EvidenceVerifier.pySetItem
      dsimp only
      rw [hg]
      rfl
    | jobj kvs0 =>
      refine ⟨pyDictSet kvs f (.jarr []), ?_,
        pyDictGet_pyDictSet_ne kvs f w _ h⟩
      unfold EvidenceVerifier.defaultListField EvidenceVerifier.pyContains
        EvidenceVerifier.pyGetItem EvidenceVerifier.pySetItem
      dsimp only
      rw [hg]
      rfl

/-- C2 (amended) — When the response decodes to a JSON object carrying
the required `verdict` and `confidence` fields, the verification
returned by `_parse_verification_response` carries the model's verdict
value verbatim: no coercion into the four-value verdict set takes
place (the parse fallback arises only from decode failures or missing
required fields). -/
theorem parse_verification_keeps_model_verdict
    (response claim intent : PyStr) (kvs : List (PyStr × JVal)) (v : JVal)
    (hdec : EvidenceVerifier.decodeCandidate response = some (.jobj kvs))
    (hv : pyDictGet kvs "verdict".toList = some v)
    (hc : (pyDictGet kvs "confidence".toList).isSome) :
    ∃ kvs2, EvidenceVerifier.parse_verification_response response claim intent
        = .ok (.jobj kvs2)
      ∧ pyDictGet kvs2 "verdict".toList = some v := by
  have hcont1 : EvidenceVerifier.pyContains (.jobj kvs) "verdict".toList
      = .ok true := by
    unfold EvidenceVerifier.pyContains
    dsimp only
    rw [hv]
    rfl
  have hcont2 : EvidenceVerifier.pyContains (.jobj kvs) "confidence".toList
      = .ok true := by
    unfold EvidenceVerifier.pyContains
    dsimp only
    rw [Option.isSome_iff_exists] at hc
    obtain ⟨c, hc⟩ := hc
    rw [hc]
    rfl
  have h1 : ("claim".toList : PyStr) ≠ "verdict".toList := by decide
  have h2 : ("intent".toList : PyStr) ≠ "verdict".toList := by decide
  have h3 : ("timestamp".toList : PyStr) ≠ "verdict".toList := by decide
  have h4 : ("supporting_evidence".toList : PyStr) ≠ "verdict".toList := by
    decide
  have h5 : ("contradicting_evidence".toList : PyStr) ≠ "verdict".toList := by
    decide
  set kA := pyDictSet kvs "claim".toList (.jstr claim) with hkA
  set kB := pyDictSet kA "intent".toList (.jstr intent) with hkB
  set kC := pyDictSet kB "timestamp".toList
    (.jstr EvidenceVerifier.get_timestamp) with hkC
  have gC : pyDictGet kC "verdict".toList = some v := by
    rw [hkC, pyDictGet_pyDictSet_ne _ _ _ _ h3,
      hkB, pyDictGet_pyDictSet_ne _ _ _ _ h2,
      hkA, pyDictGet_pyDictSet_ne _ _ _ _ h1, hv]
  obtain ⟨kD, hD, gD⟩ := defaultListField_preserves kC
    "supporting_evidence".toList "verdict".toList h4
  obtain ⟨kE, hE, gE⟩ := defaultListField_preserves kD
    "contradicting_evidence".toList "verdict".toList h5
  refine ⟨kE, ?_, by rw [gE, gD, gC]⟩
  unfold EvidenceVerifier.parse_verification_response
  rw [hdec]
  dsimp only
  rw [hcont1]
  show (do
    let hasConf ← EvidenceVerifier.pyContains (.jobj kvs) "confidence".toList
    if ¬ hasConf then
      Except.ok (EvidenceVerifier.create_fallback_result claim intent response)
    else do
      let r1 ← EvidenceVerifier.pySetItem (.jobj kvs) "claim".toList (.jstr claim)
      let r2 ← EvidenceVerifier.pySetItem r1 "intent".toList (.jstr intent)
      let r3 ← EvidenceVerifier.pySetItem r2 "timestamp".toList
        (.jstr EvidenceVerifier.get_timestamp)
      let r4 ← EvidenceVerifier.defaultListField r3 "supporting_evidence".toList
      let r5 ← EvidenceVerifier.defaultListField r4 "contradicting_evidence".toList
      Except.ok r5) = Except.ok (JVal.jobj kE)
  rw [hcont2]
  show (do
    let r4 ← EvidenceVerifier.defaultListField (.jobj kC)
      "supporting_evidence".toList
    let r5 ← EvidenceVerifier.defaultListField r4 "contradicting_evidence".toList
    Except.ok r5) = Except.ok (JVal.jobj kE)
  rw [hD]
  show EvidenceVerifier.defaultListField (.jobj kD)
    "contradicting_evidence".toList >>= (fun r5 => Except.ok r5)
      = Except.ok (JVal.jobj kE)
  rw [hE]
  rfl

/-- The gateway response text used to refute the verdict-coercion
sentence: well-formed JSON whose verdict lies outside the four-value
set. -/
def c2_response : PyStr :=
  "\x7b\"verdict\": \"MAYBE\", \"confidence\": 0.5\x7d".toList

/-- Counterexample to C2 as stated: fed a response whose JSON verdict
is `MAYBE`, `_parse_verification_response` returns a verification whose
verdict is `MAYBE` — a value outside the closed four-value set — rather
than treating it as a parse failure. -/
theorem parse_verification_verdict_not_coerced :
    (EvidenceVerifier.parse_verification_response c2_response
        "声明".toList "事实查询".toList).map verdictOf
      = .ok (some "MAYBE".toList)
    ∧ "MAYBE".toList ∉ verdict_set :=
  ⟨rfl, by decide⟩

/-- A variant response whose confidence field is a JSON string, used to
instantiate the amended C2 theorem with a literally writable decoded
object. -/
def c2_response_str : PyStr :=
  "\x7b\"verdict\": \"MAYBE\", \"confidence\": \"high\"\x7d".toList

/-- Witness for the amended C2 theorem at a concrete response. -/
theorem parse_verification_keeps_model_verdict_witness :
    ∃ kvs2, EvidenceVerifier.parse_verification_response c2_response_str
        "声明".toList "事实查询".toList = .ok (.jobj kvs2)
      ∧ pyDictGet kvs2 "verdict".toList = some (.jstr "MAYBE".toList) :=
  parse_verification_keeps_model_verdict c2_response_str
    "声明".toList "事实查询".toList
    [("verdict".toList, .jstr "MAYBE".toList),
     ("confidence".toList, .jstr "high".toList)]
    (.jstr "MAYBE".toList) rfl rfl rfl

/-- C3 — Evaluating `verify_claim` at a gateway error result of the
documented shape (`error=true`, diagnostic in `text`): the error branch
reads `response['error_message']`, a key that shape does not carry, so
the call raises `KeyError` instead of returning the distinct error
verification `_create_error_result` was written to produce. -/
theorem verify_claim_gateway_error_raises :
    EvidenceVerifier.verify_claim "巴黎是法国的首都".toList []
      "巴黎在哪里".toList "事实查询".toList
      { script := [{ text := "所有重试失败".toList, error := true,
                     usage := .jobj [] }], calls := 0 }
      = .error (.keyError "error_message".toList) := rfl

/-- C1 (amended) — Claims whose id is absent from the evidence map are
all verified directly by `batch_verify` as UNVERIFIED with confidence
0.0, and the gateway state is returned untouched: no gateway call is
issued for any of them.  (Claims that are present in the map are sent
to the gateway even when their evidence list is empty — see the
counterexample below.) -/
theorem batch_verify_unmapped_claims (claims : List Claim)
    (evidence_map : List (PyStr × EvidenceVerifier.EvidenceInfo))
    (query intent : PyStr) (s : GwState)
    (h : ∀ c ∈ claims, ∃ id, c.id = some id
      ∧ evidence_map.lookup id = none) :
    ∃ vs, EvidenceVerifier.batch_verify claims evidence_map query intent s
        = .ok (vs, s)
      ∧ vs.length = claims.length
      ∧ ∀ v ∈ vs, verdictOf v = some "UNVERIFIED".toList
        ∧ confidenceOf v = some 0 := by
  revert h
  induction claims with
  | nil => exact fun _ => ⟨[], rfl, rfl, by simp⟩
  | cons c rest ih =>
    intro h
    obtain ⟨id, hid, hlk⟩ := h c (List.mem_cons_self c rest)
    obtain ⟨vs, htail, hlen, hall⟩ :=
      ih (fun d hd => h d (List.mem_cons_of_mem c hd))
    refine ⟨EvidenceVerifier.unverified_entry id c.text :: vs, ?_,
      by simp [hlen], ?_⟩
    · unfold EvidenceVerifier.batch_verify
      rw [hid]
      dsimp only
      rw [hlk]
      dsimp only
      rw [htail]
      rfl
    · intro v hv
      rcases List.mem_cons.mp hv with hv | hv
      · subst hv
        exact ⟨rfl, rfl⟩
      · exact hall v hv

/-- The single claim of the C1 counterexample run. -/
def c1_claim : Claim :=
  { id := some "claim_1".toList, text := "巴黎是法国的首都".toList,
    confidence := 9/10, atomic := true, original_position := some 0 }

/-- A successful supporting verification response for that claim. -/
def c1_support_response : LLMResponse :=
  { text := "\x7b\"verdict\": \"SUPPORTED\", \"confidence\": 0.95\x7d".toList,
    error := false, usage := .jobj [] }

/-- The C1 counterexample run: retrieval over an empty store builds the
evidence map, then `batch_verify` verifies the claim; the result keeps
the map entries (claim id and evidence list), the verdicts, and the
number of gateway calls issued. -/
def c1_run :
    Except PyErr (List (PyStr × List Snippet) × List (Option PyStr) × Nat) := do
  let (emap, s1) ← LLMOrchestrator.retrieve_evidence_for_claims
    "巴黎在哪里".toList [c1_claim] "事实查询".toList (fun _ => [])
    { script := [c1_support_response], calls := 0 }
  let (vs, s2) ← EvidenceVerifier.batch_verify [c1_claim] emap
    "巴黎在哪里".toList "事实查询".toList s1
  .ok (emap.map (fun kv => (kv.1, kv.2.evidence)), vs.map verdictOf, s2.calls)

/-- Counterexample to C1 as stated: the claim's evidence list is empty,
yet a gateway call is issued for it (one call in total, none of which
came from retrieval) and its verification verdict is the gateway's
SUPPORTED — not UNVERIFIED/0.0. -/
theorem batch_verify_empty_evidence_calls_gateway :
    c1_run = .ok ([("claim_1".toList, [])], [some "SUPPORTED".toList], 1)
    ∧ some "SUPPORTED".toList ≠ some "UNVERIFIED".toList :=
  ⟨rfl, by decide⟩

/-- Witness for the amended C1 theorem: one claim against an empty
evidence map. -/
theorem batch_verify_unmapped_claims_witness :
    ∃ vs, EvidenceVerifier.batch_verify [c1_claim] []
        "巴黎在哪里".toList "事实查询".toList { script := [], calls := 0 }
        = .ok (vs, { script := [], calls := 0 })
      ∧ vs.length = [c1_claim].length
      ∧ ∀ v ∈ vs, verdictOf v = some "UNVERIFIED".toList
        ∧ confidenceOf v = some 0 :=
  batch_verify_unmapped_claims [c1_claim] [] "巴黎在哪里".toList
    "事实查询".toList { script := [], calls := 0 }
    (by
      intro c hc
      rw [List.mem_singleton] at hc
      subst hc
      exact ⟨"claim_1".toList, rfl, rfl⟩)


theorem mem_keys_assocSet {α : Type} (kvs : List (PyStr × α)) (k w : PyStr)
    (v : α) :
    w ∈ (assocSet kvs k v).map Prod.fst ↔ w ∈ kvs.map Prod.fst ∨ w = k := by
  induction kvs with
  | nil =>
    simp only [assocSet, List.map_cons, List.map_nil, List.mem_singleton,
      List.not_mem_nil, false_or]
  | cons kv rest ih =>
    obtain ⟨k0, v0⟩ := kv
    by_cases hk : k0 = k
    · subst hk
      rw [show assocSet ((k0, v0) :: rest) k0 v = (k0, v) :: rest from by
        simp [assocSet]]
      simp only [List.map_cons, List.mem_cons]
      tauto
    · rw [show assocSet ((k0, v0) :: rest) k v
        = (k0, v0) :: assocSet rest k v from by simp [assocSet, hk]]
      simp only [List.map_cons, List.mem_cons, ih]
      tauto

theorem nodup_keys_assocSet {α : Type} (kvs : List (PyStr × α)) (k : PyStr)
    (v : α) (h : (kvs.map Prod.fst).Nodup) :
    ((assocSet kvs k v).map Prod.fst).Nodup := by
  induction kvs with
  | nil => simp [assocSet]
  | cons kv rest ih =>
    obtain ⟨k0, v0⟩ := kv
    simp only [List.map_cons, List.nodup_cons] at h
    by_cases hk : k0 = k
    · subst hk
      rw [show assocSet ((k0, v0) :: rest) k0 v = (k0, v) :: rest from by
        simp [assocSet]]
      simp only [List.map_cons, List.nodup_cons]
      exact h
    · rw [show assocSet ((k0, v0) :: rest) k v
        = (k0, v0) :: assocSet rest k v from by simp [assocSet, hk]]
      simp only [List.map_cons, List.nodup_cons]
      refine ⟨?_, ih h.2⟩
      rw [mem_keys_assocSet]
      rintro (h' | h')
      · exact h.1 h'
      · exact hk h'

theorem retrieve_evidence_loop_keys (query intent : PyStr) (retr : Retriever)
    (claims : List Claim) :
    ∀ (acc : List (PyStr × EvidenceVerifier.EvidenceInfo)) (s : GwState)
      (emap : List (PyStr × EvidenceVerifier.EvidenceInfo)) (s2 : GwState),
    LLMOrchestrator.retrieve_evidence_loop query claims intent retr acc s
      = .ok (emap, s2) →
    ((acc.map Prod.fst).Nodup → (emap.map Prod.fst).Nodup)
      ∧ ∀ w, w ∈ emap.map Prod.fst ↔
          w ∈ acc.map Prod.fst ∨ some w ∈ claims.map Claim.id := by
  induction claims with
  | nil =>
    intro acc s emap s2 h
    unfold LLMOrchestrator.retrieve_evidence_loop at h
    cases h
    simp only [List.map_nil, List.not_mem_nil, or_false]
    exact ⟨id, fun w => trivial⟩
  | cons c rest ih =>
    intro acc s emap s2 h
    unfold LLMOrchestrator.retrieve_evidence_loop at h
    cases hid : c.id with
    | none => rw [hid] at h; cases h
    | some id0 =>
      rw [hid] at h
      dsimp only at h
      cases hbq : LLMOrchestrator.build_retrieval_query query c.text intent s with
      | error e => rw [hbq] at h; cases h
      | ok rqs =>
        obtain ⟨rq, s1⟩ := rqs
        rw [hbq] at h
        dsimp only [Except.bind, bind] at h
        obtain ⟨hnd, hmem⟩ := ih _ _ _ _ h
        constructor
        · intro hacc
          exact hnd (nodup_keys_assocSet acc id0 _ hacc)
        · intro w
          rw [hmem w, mem_keys_assocSet]
          simp only [List.map_cons, List.mem_cons, hid]
          constructor
          · rintro ((h' | h') | h')
            · exact Or.inl h'
            · exact Or.inr (Or.inl (by rw [h']))
            · exact Or.inr (Or.inr h')
          · rintro (h' | h' | h')
            · exact Or.inl (Or.inl h')
            · cases h'
              exact Or.inl (Or.inr rfl)
            · exact Or.inr h'

/-- C5 (amended) — Whenever the retrieval stage succeeds, the evidence
map it builds has no duplicate keys and its key set is exactly the set
of claim ids produced by extraction: no id is dropped.  Extraction may
however emit several claims sharing one id (see the counterexample), in
which case they collapse onto a single map entry, so the
correspondence is between id sets, not id lists. -/
theorem retrieve_evidence_map_keys (query intent : PyStr) (retr : Retriever)
    (claims : List Claim) (s : GwState)
    (emap : List (PyStr × EvidenceVerifier.EvidenceInfo)) (s2 : GwState)
    (h : LLMOrchestrator.retrieve_evidence_for_claims query claims intent
      retr s = .ok (emap, s2)) :
    (emap.map Prod.fst).Nodup
      ∧ ∀ w, w ∈ emap.map Prod.fst ↔ some w ∈ claims.map Claim.id := by
  obtain ⟨hnd, hmem⟩ := retrieve_evidence_loop_keys query intent retr claims
    [] s emap s2 h
  refine ⟨hnd (by simp), fun w => ?_⟩
  rw [hmem w]
  simp only [List.map_nil, List.not_mem_nil, false_or]

/-- An extraction response in which the model numbered two different
claims `1` and `01`: `int()` collapses both to id `claim_1`. -/
def c5_extraction_response : LLMResponse :=
  { text := "[CLAIM_1]: 巴黎是法国的首都城市\n[CLAIM_01]: 巴黎位于塞纳河畔地区".toList,
    error := false, usage := .jobj [] }

/-- The C5 counterexample run: extraction followed by evidence
retrieval, keeping the extracted claim ids and the evidence-map
keys. -/
def c5_run : Except PyErr (List (Option PyStr) × List PyStr) := do
  let cs := ClaimExtractor.extract_claims
    "巴黎是法国的首都城市。巴黎位于塞纳河畔地区。".toList
    { script := [c5_extraction_response], calls := 0 }
  let (emap, _) ← LLMOrchestrator.retrieve_evidence_for_claims
    "巴黎在哪里".toList cs.1 "事实查询".toList (fun _ => []) cs.2
  .ok (cs.1.map Claim.id, emap.map Prod.fst)

/-- Counterexample to C5 as stated: a successful extraction-and-
retrieval pass in which extraction produced two claims with the same id
`claim_1` (claim ids are not unique within the run) while the evidence
map holds a single entry — the two claims collapsed between extraction
and verification. -/
theorem extraction_ids_can_duplicate :
    c5_run = .ok ([some "claim_1".toList, some "claim_1".toList],
      ["claim_1".toList])
    ∧ ¬ ([some "claim_1".toList, some "claim_1".toList]
        : List (Option PyStr)).Nodup :=
  ⟨rfl, by decide⟩

/-- The single claim of the C5 witness run. -/
def c5_claim : Claim :=
  { id := some "claim_1".toList, text := "巴黎是法国的首都".toList,
    confidence := 9/10, atomic := true, original_position := some 0 }

/-- The evidence map the C5 witness run builds. -/
def c5_emap : List (PyStr × EvidenceVerifier.EvidenceInfo) :=
  [("claim_1".toList,
    { claim := "巴黎是法国的首都".toList,
      retrieval_query :=
        "找到关于[巴黎在哪里]的具体事实 具体验证声明: 巴黎是法国的首都".toList,
      evidence := [], retrieval_timestamp := [] })]

/-- Witness for the amended C5 theorem at a concrete one-claim run. -/
theorem retrieve_evidence_map_keys_witness :
    (c5_emap.map Prod.fst).Nodup
      ∧ ∀ w, w ∈ c5_emap.map Prod.fst ↔
          some w ∈ [c5_claim].map Claim.id :=
  retrieve_evidence_map_keys "巴黎在哪里".toList "事实查询".toList
    (fun _ => []) [c5_claim] { script := [], calls := 0 } c5_emap
    { script := [], calls := 0 } rfl

theorem fallback_claims_proj (l : List PyStr) :
    ∀ n, ((List.enumFrom n l).filterMap (fun is =>
      let s := pyStrip is.2
      if 10 < s.length then
        some { id := some ("claim_".toList ++ natToStr (is.1 + 1)),
               text := s, confidence := 7/10, atomic := false,
               original_position := some is.1 : Claim }
      else none)).map (fun c => (c.text, c.confidence, c.atomic))
    = ((l.map pyStrip).filter (fun s => 10 < s.length)).map
        (fun s => (s, (7 : ℚ)/10, false)) := by
  induction l with
  | nil => intro n; rfl
  | cons x rest ih =>
    intro n
    by_cases hx : 10 < (pyStrip x).length
    · simp only [List.enumFrom, List.filterMap_cons, List.map_cons,
        List.filter_cons, hx, if_pos, decide_true_eq_true]
      exact congrArg (List.cons (pyStrip x, (7 : ℚ)/10, false)) (ih (n + 1))
    · simp only [List.enumFrom, List.filterMap_cons, List.map_cons,
        List.filter_cons, hx, if_neg]
      simp only [decide_eq_true_eq, hx, if_false]
      exact ih (n + 1)

theorem fallback_extraction_proj (text : PyStr) :
    (ClaimExtractor.fallback_extraction text).map
      (fun c => (c.text, c.confidence, c.atomic))
    = (let kept := ((reSplitRuns ClaimExtractor.isSentenceEnd text).map
          pyStrip).filter (fun s => 10 < s.length);
       if kept.isEmpty then [(text, (1 : ℚ), true)]
       else kept.map (fun s => (s, (7 : ℚ)/10, false))) := by
  unfold ClaimExtractor.fallback_extraction
  dsimp only
  have h := fallback_claims_proj (reSplitRuns ClaimExtractor.isSentenceEnd text) 0
  rw [show (reSplitRuns ClaimExtractor.isSentenceEnd text).enum
    = List.enumFrom 0 (reSplitRuns ClaimExtractor.isSentenceEnd text) from rfl]
  set claims := (List.enumFrom 0
    (reSplitRuns ClaimExtractor.isSentenceEnd text)).filterMap _ with hclaims
  set kept := ((reSplitRuns ClaimExtractor.isSentenceEnd text).map
    pyStrip).filter (fun s => 10 < s.length) with hkept
  by_cases hk : kept.isEmpty
  · have hce : claims = [] := by
      have hlen := congrArg List.length h
      simp only [List.length_map] at hlen
      rw [List.isEmpty_iff] at hk
      rw [hk] at hlen
      simpa using List.length_eq_zero.mp (by simpa using hlen)
    rw [hce]
    simp [hk]
  · have hcne : ¬ claims.isEmpty = true := by
      intro hc
      rw [List.isEmpty_iff] at hc
      rw [hc] at h
      simp only [List.map_nil] at h
      have hke : kept = [] := by
        cases hkept2 : kept with
        | nil => rfl
        | cons a b =>
          rw [hkept2] at h
          simp at h
      rw [List.isEmpty_iff] at hk
      exact hk hke
    rw [if_neg hcne, if_neg hk]
    exact h

/-- C7 (amended) — When claim extraction reaches the sentence-boundary
fallback (the gateway call failed, or zero response lines matched the
`[CLAIM_n]:` format), the text is split on terminal punctuation and
exactly the stripped fragments STRICTLY longer than 10 characters are
kept, each as a claim with confidence 0.7 and atomic=false; fragments
of length 10 or shorter are discarded, and if nothing survives a single
whole-text claim with confidence 1.0 is returned. -/
theorem extract_claims_fallback_boundary (text : PyStr) (resp : LLMResponse)
    (h10 : 10 ≤ (pyStrip text).length)
    (htrig : resp.error = true
      ∨ ClaimExtractor.parsed_claim_lines resp.text text = []) :
    (ClaimExtractor.extract_claims text
        { script := [resp], calls := 0 }).1.map
      (fun c => (c.text, c.confidence, c.atomic))
    = (let kept := ((reSplitRuns ClaimExtractor.isSentenceEnd text).map
          pyStrip).filter (fun s => 10 < s.length);
       if kept.isEmpty then [(text, (1 : ℚ), true)]
       else kept.map (fun s => (s, (7 : ℚ)/10, false))) := by
  have hne : ¬ (text.isEmpty = true ∨ (pyStrip text).length < 10) := by
    rintro (he | hl)
    · rw [List.isEmpty_iff] at he
      subst he
      simp [pyStrip] at h10
    · omega
  unfold ClaimExtractor.extract_claims
  rw [if_neg hne]
  dsimp only [callWithRetry]
  cases herr : resp.error with
  | true =>
    simp only [if_pos]
    exact fallback_extraction_proj text
  | false =>
    rcases htrig with ht | ht
    · rw [herr] at ht
      cases ht
    · simp only [Bool.false_eq_true, if_false]
      unfold ClaimExtractor.parse_claims_response
      rw [ht]
      simp only [List.isEmpty_nil, if_pos]
      exact fallback_extraction_proj text

/-- The gateway failure that routes the C7 runs into the fallback. -/
def c7_error_response : LLMResponse :=
  { text := "接口超时".toList, error := true, usage := .jobj [] }

/-- Counterexample to C7 as stated: on an input that is exactly one
10-character fragment, the fallback DISCARDS the fragment (the code
keeps only fragments of length `> 10`, not `≥ 10`) and returns the
whole-text claim with confidence 1.0 instead of a confidence-0.7
claim. -/
theorem fallback_discards_length10_fragment :
    ClaimExtractor.extract_claims "abcdefghij".toList
      { script := [c7_error_response], calls := 0 }
      = ([{ id := none, text := "abcdefghij".toList, confidence := 1,
            atomic := true, original_position := none }],
         { script := [], calls := 1 })
    ∧ (pyStrip "abcdefghij".toList).length = 10 :=
  ⟨rfl, by decide⟩

/-- Witness for the amended C7 theorem: a gateway failure over a text
with one 11-character fragment and one 1-character fragment. -/
theorem extract_claims_fallback_boundary_witness :
    10 ≤ (pyStrip "abcdefghijk。x".toList).length ∧
    (ClaimExtractor.extract_claims "abcdefghijk。x".toList
        { script := [c7_error_response], calls := 0 }).1.map
      (fun c => (c.text, c.confidence, c.atomic))
    = (let kept := ((reSplitRuns ClaimExtractor.isSentenceEnd
          "abcdefghijk。x".toList).map pyStrip).filter
            (fun s => 10 < s.length);
       if kept.isEmpty then [("abcdefghijk。x".toList, (1 : ℚ), true)]
       else kept.map (fun s => (s, (7 : ℚ)/10, false))) :=
  ⟨by decide, extract_claims_fallback_boundary "abcdefghijk。x".toList
    c7_error_response (by decide) (Or.inl rfl)⟩

/-- C10 — For every intent outside the four built-in template keys,
`generate_retrieval_prompt` raises `KeyError` on the template subscript
instead of returning a reformulated query, and consequently the
evidence-retrieval stage (`_retrieve_evidence_for_claims`) aborts with
an exception on any non-empty claim list; so a configured
`supported_intents` or `default_intent` value outside those keys makes
the retrieval stage abort the run. -/
theorem unknown_intent_aborts_retrieval (query intent : PyStr) (s : GwState)
    (h : intent ∉ IntentClassifier.intent_templates.map Prod.fst) :
    IntentClassifier.generate_retrieval_prompt query intent s
        = .error (.keyError intent)
    ∧ ∀ (claims : List Claim) (retr : Retriever) (s2 : GwState),
        claims ≠ [] →
        ∃ e, LLMOrchestrator.retrieve_evidence_for_claims query claims intent
          retr s2 = .error e := by
  have hne : intent ≠ "比较查询".toList := fun he => h (by rw [he]; decide)
  have h1 : intent ≠ "事实查询".toList := fun he => h (by rw [he]; decide)
  have h3 : intent ≠ "方法查询".toList := fun he => h (by rw [he]; decide)
  have h4 : intent ≠ "观点查询".toList := fun he => h (by rw [he]; decide)
  have hlk : IntentClassifier.intent_templates.lookup intent = none := by
    have b1 := beq_eq_false_iff_ne.mpr h1
    have b2 := beq_eq_false_iff_ne.mpr hne
    have b3 := beq_eq_false_iff_ne.mpr h3
    have b4 := beq_eq_false_iff_ne.mpr h4
    simp only [IntentClassifier.intent_templates, List.lookup, b1, b2, b3, b4]
  have hgen : ∀ s' : GwState,
      IntentClassifier.generate_retrieval_prompt query intent s'
        = .error (.keyError intent) := by
    intro s'
    unfold IntentClassifier.generate_retrieval_prompt
    rw [if_neg hne, hlk]
  refine ⟨hgen s, ?_⟩
  intro claims retr s2 hcl
  cases claims with
  | nil => exact absurd rfl hcl
  | cons c rest =>
    unfold LLMOrchestrator.retrieve_evidence_for_claims
      LLMOrchestrator.retrieve_evidence_loop
    cases hid : c.id with
    | none => exact ⟨.keyError "id".toList, rfl⟩
    | some id0 =>
      refine ⟨.keyError intent, ?_⟩
      dsimp only
      unfold LLMOrchestrator.build_retrieval_query
      rw [hgen s2]
      rfl

/-- Witness for C10 at the concrete unknown intent `随便`. -/
theorem unknown_intent_aborts_retrieval_witness :
    IntentClassifier.generate_retrieval_prompt "什么是Python".toList
        "随便".toList { script := [], calls := 0 }
        = .error (.keyError "随便".toList)
    ∧ ∀ (claims : List Claim) (retr : Retriever) (s2 : GwState),
        claims ≠ [] →
        ∃ e, LLMOrchestrator.retrieve_evidence_for_claims "什么是Python".toList
          claims "随便".toList retr s2 = .error e :=
  unknown_intent_aborts_retrieval "什么是Python".toList "随便".toList
    { script := [], calls := 0 } (by decide)

theorem core_retrieve_evidence_missing_id (query : PyStr) (retr : Retriever)
    (claims : List Claim) :
    ∀ acc, (∃ c ∈ claims, c.id = none) →
    CoreOrchestrator.retrieve_evidence_loop query claims retr acc
      = .error (.keyError "id".toList) := by
  induction claims with
  | nil =>
    intro acc h
    simp at h
  | cons c rest ih =>
    intro acc h
    unfold CoreOrchestrator.retrieve_evidence_loop
    cases hid : c.id with
    | none => rfl
    | some id0 =>
      dsimp only
      apply ih
      obtain ⟨d, hd, hdid⟩ := h
      rcases List.mem_cons.mp hd with rfl | hd
      · rw [hid] at hdid
        cases hdid
      · exact ⟨d, hd, hdid⟩

/-- C4 (amended) — When a pipeline stage raises (here: evidence
retrieval, on a claim carrying no id), `process_query` returns a result
with `success=false` that records the unhandled error, but the stage
name it records is `_identify_error_step`'s last COMPLETED stage — the
stage preceding the failing one (or `initialization` when none
completed) — not the stage that was executing when the failure
occurred. -/
theorem process_query_records_last_completed_stage
    (cfg : IntentConfig) (query : PyStr) (context : Option PyStr)
    (retr : Retriever) (s : GwState)
    (h : ∃ c ∈ (ClaimExtractor.extract_claims
          (CoreOrchestrator.generate_initial_answer query context s).1
          (IntentClassifier.classify_intent cfg query
            (CoreOrchestrator.generate_initial_answer query context s).2).2).1,
        c.id = none) :
    (CoreOrchestrator.process_query cfg query context retr s).success = false
    ∧ (CoreOrchestrator.process_query cfg query context retr s).error
        = some (pyErrStr (.keyError "id".toList))
    ∧ (CoreOrchestrator.process_query cfg query context retr s).error_step
        = some "claim_extraction".toList := by
  rcases hg : CoreOrchestrator.generate_initial_answer query context s
    with ⟨ia, s1⟩
  rw [hg] at h
  dsimp only at h
  rcases hc : IntentClassifier.classify_intent cfg query s1 with ⟨intent, s2⟩
  rw [hc] at h
  dsimp only at h
  rcases he : ClaimExtractor.extract_claims ia s2 with ⟨claims, s3⟩
  rw [he] at h
  dsimp only at h
  have hr : CoreOrchestrator.retrieve_evidence query claims retr
      = .error (.keyError "id".toList) :=
    core_retrieve_evidence_missing_id query retr claims [] h
  unfold CoreOrchestrator.process_query
  rw [hg]
  dsimp only
  rw [hc]
  dsimp only
  rw [he]
  dsimp only
  rw [hr]
  exact ⟨rfl, rfl, rfl⟩

/-- The intent configuration of the C4 runs. -/
def c4_cfg : IntentConfig :=
  { supported_intents := ["事实查询".toList, "比较查询".toList,
      "方法查询".toList, "观点查询".toList],
    default_intent := "事实查询".toList }

/-- The gateway script of the C4 runs: a short initial answer (which
extraction turns into a single id-less claim) and an intent reply. -/
def c4_script : GwState :=
  { script :=
    [{ text := "短回答。".toList, error := false, usage := .jobj [] },
     { text := "事实查询".toList, error := false, usage := .jobj [] }],
    calls := 0 }

/-- Counterexample to C4 as stated: the run fails inside the
evidence-retrieval stage (shown by the third conjunct), yet the failure
dict names `claim_extraction` — the last completed stage — not the
stage that was last executing. -/
theorem process_query_failure_misnames_stage :
    (CoreOrchestrator.process_query c4_cfg "什么是Python".toList none
      (fun _ => []) c4_script).success = false
    ∧ (CoreOrchestrator.process_query c4_cfg "什么是Python".toList none
      (fun _ => []) c4_script).error_step = some "claim_extraction".toList
    ∧ CoreOrchestrator.retrieve_evidence "什么是Python".toList
        [{ id := none, text := "短回答。".toList, confidence := 1,
           atomic := true, original_position := none }] (fun _ => [])
        = .error (.keyError "id".toList)
    ∧ (CoreOrchestrator.process_query c4_cfg "什么是Python".toList none
      (fun _ => []) c4_script).error_step ≠ some "evidence_retrieval".toList :=
  ⟨rfl, rfl, rfl, by decide⟩

/-- Witness for the amended C4 theorem at the concrete failing run. -/
theorem process_query_records_last_completed_stage_witness :
    (∃ c ∈ (ClaimExtractor.extract_claims
          (CoreOrchestrator.generate_initial_answer "什么是Python".toList none
            c4_script).1
          (IntentClassifier.classify_intent c4_cfg "什么是Python".toList
            (CoreOrchestrator.generate_initial_answer "什么是Python".toList
              none c4_script).2).2).1,
        c.id = none)
    ∧ (CoreOrchestrator.process_query c4_cfg "什么是Python".toList none
        (fun _ => []) c4_script).success = false
    ∧ (CoreOrchestrator.process_query c4_cfg "什么是Python".toList none
        (fun _ => []) c4_script).error
        = some (pyErrStr (.keyError "id".toList))
    ∧ (CoreOrchestrator.process_query c4_cfg "什么是Python".toList none
        (fun _ => []) c4_script).error_step
        = some "claim_extraction".toList :=
  ⟨⟨{ id := none, text := "短回答。".toList, confidence := 1, atomic := true,
      original_position := none }, by decide⟩,
   process_query_records_last_completed_stage c4_cfg "什么是Python".toList
     none (fun _ => []) c4_script
     ⟨{ id := none, text := "短回答。".toList, confidence := 1, atomic := true,
        original_position := none }, by decide⟩⟩
